import Mathlib

/-!
Verification development for the trend change-point detection subsystem of the
Social-sentiment-trend-monitor repository.

The embedding models the Python sources under `src/src/trend/`:
  * `simple_change_detector.py` (`SimpleChangeDetector`),
  * `time_series.py`            (`TimeSeriesAnalyzer`),
  * `advanced_change_detectors.py` (`CUSUMDetector`, `ZScoreDetector`,
    `BayesianChangeDetector`),
  * `trend_utils.py`            (`TrendAnalyzer._generate_alerts`).

Modelling conventions:
  * timestamps (`analyzed_at`, pandas datetimes) are integers (minutes);
    `pandas .dt.floor(width)` is integer flooring to a multiple of the width
    (the source uses widths such as "10min"/"1h" that divide a day, so pandas
    bins are aligned to epoch multiples of the width);
  * float arithmetic that stays inside field operations is modelled over `ℚ`
    (exact, executable); the advanced detectors, whose statistics involve
    `sqrt` and `exp`, are modelled over `ℝ`;
  * a Python dict emitted by a detector becomes a structure with the same
    field names;
  * fallible dictionary access (`row['positive_score']` raising `KeyError`)
    is modelled with `Except`.
-/

/-- The `change_type` values emitted by every detector:
the strings `"increase"` / `"decrease"` in the source. -/
inductive ChangeType where
  | increase
  | decrease
deriving DecidableEq, Repr, Inhabited

/-- Shared scalarizer.  Verbatim formula
`positive * 1.0 + neutral * 0.0 + negative * (-1.0)` from
`SimpleChangeDetector._calculate_sentiment_score`
(`simple_change_detector.py` lines 122-136); the identical formula is
duplicated in `TimeSeriesAnalyzer.calculate_sentiment_score`
(`time_series.py` lines 55-69) and in `_calculate_sentiment_score` of
`CUSUMDetector`, `ZScoreDetector` and `BayesianChangeDetector`
(`advanced_change_detectors.py`). -/
def calculateSentimentScore (positive negative neutral : ℚ) : ℚ :=
  positive * 1 + neutral * 0 + negative * (-1)

/-- One input record of the sentiment list consumed by the detectors:
`analyzed_at` plus the three scores (all fields present). -/
structure SentimentItem where
  analyzed_at : ℤ
  positive_score : ℚ
  negative_score : ℚ
  neutral_score : ℚ
deriving DecidableEq, Repr, Inhabited

/-- The `sentiment_score` column added by the detectors via `df.apply`. -/
def SentimentItem.score (it : SentimentItem) : ℚ :=
  calculateSentimentScore it.positive_score it.negative_score it.neutral_score

/-- Mean of a rational list (`np.mean` / pandas `mean` on a non-empty group).
Lean's convention `x / 0 = 0` is only ever exercised on empty input, which the
call sites below rule out. -/
def listMeanQ (l : List ℚ) : ℚ :=
  l.sum / l.length

/-- Flooring a timestamp to a window boundary:
`df['analyzed_at'].dt.floor(width)` in the source, i.e.
`floor(t / w) * w` with floor division. -/
def floorToWindow (w t : ℤ) : ℤ :=
  Int.fdiv t w * w

/-- One row of the grouped frame built by
`SimpleChangeDetector._aggregate_by_window`
(`simple_change_detector.py` lines 97-120): columns `time_window`,
`mean_sentiment`, `count`.  The source also computes a `std_sentiment`
column (a pandas sample standard deviation, an irrational square root);
no downstream code of the detector ever reads it, so it is omitted from
the embedding. -/
structure AggWindow where
  time_window : ℤ
  mean_sentiment : ℚ
  count : ℕ
deriving DecidableEq, Repr, Inhabited

namespace SimpleChangeDetector

/-- Detector state set by `SimpleChangeDetector.__init__`
(`simple_change_detector.py` lines 24-33). -/
structure Config where
  window_minutes : ℤ
  threshold : ℚ
deriving DecidableEq, Repr

/-- `SimpleChangeDetector.__init__(window_minutes, threshold)`: the body is
two plain attribute assignments and contains no validation of any kind. -/
def init (window_minutes : ℤ) (threshold : ℚ) : Config :=
  { window_minutes := window_minutes, threshold := threshold }

/-- The distinct window keys of `groupby('time_window')`, in the ascending
order pandas emits groups (groupby sorts keys by default). -/
def windowKeys (w : ℤ) (data : List SentimentItem) : List ℤ :=
  List.insertionSort (· ≤ ·)
    ((data.map (fun it => floorToWindow w it.analyzed_at)).dedup)

/-- `SimpleChangeDetector._aggregate_by_window`: floor each timestamp to the
window, group by the floored key (one group per key that occurs, i.e. per
non-empty window), aggregate mean and count, keys ascending. -/
def aggregate_by_window (w : ℤ) (data : List SentimentItem) : List AggWindow :=
  (windowKeys w data).map (fun k =>
    let grp := data.filter (fun it => floorToWindow w it.analyzed_at == k)
    { time_window := k
      mean_sentiment := listMeanQ (grp.map SentimentItem.score)
      count := grp.length })

/-- One change point emitted by `SimpleChangeDetector.detect_changes`
(dict literal at `simple_change_detector.py` lines 85-93). -/
structure CP where
  change_point : ℤ
  previous_score : ℚ
  current_score : ℚ
  change_rate : ℚ
  change_type : ChangeType
  window_start : ℤ
  window_end : ℤ
deriving DecidableEq, Repr

/-- The change-rate computation of `detect_changes` (lines 77-81):
relative rate when `abs(prev_score) > 0.01`, absolute difference otherwise. -/
def changeRate (prev curr : ℚ) : ℚ :=
  if |prev| > 1 / 100 then |curr - prev| / |prev| else |curr - prev|

/-- One iteration of the `for i in range(1, len(df_grouped))` loop
(lines 71-93): emit a change point for the pair (prev, curr) exactly when
the change rate strictly exceeds the threshold. -/
def stepCP (threshold : ℚ) (prevW currW : AggWindow) : Option CP :=
  if changeRate prevW.mean_sentiment currW.mean_sentiment > threshold then
    some
      { change_point := currW.time_window
        previous_score := prevW.mean_sentiment
        current_score := currW.mean_sentiment
        change_rate := changeRate prevW.mean_sentiment currW.mean_sentiment
        change_type :=
          if currW.mean_sentiment > prevW.mean_sentiment then
            ChangeType.increase
          else ChangeType.decrease
        window_start := prevW.time_window
        window_end := currW.time_window }
  else none

/-- The record the loop body would append for index `i + 1` of the grouped
frame (pairing windows `i` and `i + 1`). -/
def recordAt (g : List AggWindow) (i : ℕ) : CP :=
  { change_point := (g.getD (i + 1) default).time_window
    previous_score := (g.getD i default).mean_sentiment
    current_score := (g.getD (i + 1) default).mean_sentiment
    change_rate :=
      changeRate (g.getD i default).mean_sentiment
        (g.getD (i + 1) default).mean_sentiment
    change_type :=
      if (g.getD (i + 1) default).mean_sentiment >
          (g.getD i default).mean_sentiment then
        ChangeType.increase
      else ChangeType.decrease
    window_start := (g.getD i default).time_window
    window_end := (g.getD (i + 1) default).time_window }

/-- The detection loop `for i in range(1, len(df_grouped))`. -/
def detectLoop (threshold : ℚ) (g : List AggWindow) : List CP :=
  (List.range' 1 (g.length - 1)).filterMap
    (fun i => stepCP threshold (g.getD (i - 1) default) (g.getD i default))

/-- `SimpleChangeDetector.detect_changes` (lines 35-95): guard on fewer than
2 samples, aggregate by window, guard on fewer than 2 windows, then scan
consecutive windows. -/
def detect_changes (cfg : Config) (data : List SentimentItem) : List CP :=
  if data.length < 2 then []
  else if (aggregate_by_window cfg.window_minutes data).length < 2 then []
  else detectLoop cfg.threshold (aggregate_by_window cfg.window_minutes data)

end SimpleChangeDetector

/-- One output row of `TimeSeriesAnalyzer.aggregate_sentiment`: the grouper
key and the three per-column means (no count column exists in that frame). -/
structure TSRow where
  analyzed_at : ℤ
  positive_score : ℚ
  negative_score : ℚ
  neutral_score : ℚ
deriving DecidableEq, Repr

namespace TimeSeriesAnalyzer

/-- The bins generated by `pd.Grouper(key='analyzed_at', freq=w)`: every
aligned window from the first to the last occupied one, inclusive —
including windows that contain no sample. -/
def binKeys (w lo hi : ℤ) : List ℤ :=
  (List.range ((Int.fdiv (hi - lo) w).toNat + 1)).map (fun i => lo + w * i)

/-- `TimeSeriesAnalyzer.aggregate_sentiment` (`time_series.py` lines 24-53):
group by `pd.Grouper(freq=w)` (regular bins spanning the whole observed
range), take the mean of each score column per bin, and `fillna(0)` — a bin
with no samples yields a row of zero means. -/
def aggregate_sentiment (w : ℤ) (data : List SentimentItem) : List TSRow :=
  match data with
  | [] => []
  | x :: xs =>
    let d := x :: xs
    let f0 := floorToWindow w x.analyzed_at
    let lo := (xs.map (fun it => floorToWindow w it.analyzed_at)).foldl min f0
    let hi := (xs.map (fun it => floorToWindow w it.analyzed_at)).foldl max f0
    (binKeys w lo hi).map (fun k =>
      let grp := d.filter (fun it => floorToWindow w it.analyzed_at == k)
      if grp.isEmpty then
        { analyzed_at := k, positive_score := 0, negative_score := 0,
          neutral_score := 0 }
      else
        { analyzed_at := k
          positive_score := listMeanQ (grp.map (·.positive_score))
          negative_score := listMeanQ (grp.map (·.negative_score))
          neutral_score := listMeanQ (grp.map (·.neutral_score)) })

end TimeSeriesAnalyzer

/-- The `1e-8` guard constant used throughout the source, as a rational. -/
def eps8 : ℚ :=
  1 / 100000000

/-- One row of the aggregated frame as `TrendAnalyzer._generate_alerts`
reads it: the `analyzed_at` bin key and the `sentiment_score` column added
in `analyze_trend` (the three raw score columns are never read by
`_generate_alerts` and are omitted). -/
structure TrendAggRow where
  analyzed_at : ℤ
  sentiment_score : ℚ
deriving DecidableEq, Repr

/-- One alert dict built by `TrendAnalyzer._generate_alerts`
(`trend_utils.py` lines 194-200). -/
structure Alert where
  change_point : ℤ
  change_type : ChangeType
  change_rate : ℚ
  previous_sentiment : ℚ
  current_sentiment : ℚ
deriving DecidableEq, Repr

namespace TrendAnalyzer

/-- The rows of the aggregated frame strictly before the change point
(`before_data`, line 168). -/
def beforeData (df : List TrendAggRow) (cp : ℤ) : List TrendAggRow :=
  df.filter (fun r => decide (r.analyzed_at < cp))

/-- The rows of the aggregated frame at or after the change point
(`after_data`, line 169). -/
def afterData (df : List TrendAggRow) (cp : ℤ) : List TrendAggRow :=
  df.filter (fun r => decide (cp ≤ r.analyzed_at))

/-- `np.mean(before_scores)` (line 186/198). -/
def beforeMean (df : List TrendAggRow) (cp : ℤ) : ℚ :=
  listMeanQ ((beforeData df cp).map (·.sentiment_score))

/-- `np.mean(after_scores)` (line 187/199). -/
def afterMean (df : List TrendAggRow) (cp : ℤ) : ℚ :=
  listMeanQ ((afterData df cp).map (·.sentiment_score))

/-- `change_rate = ((after_mean - before_mean) / (abs(before_mean) + 1e-8)) * 100`
(line 188). -/
def alertRate (df : List TrendAggRow) (cp : ℤ) : ℚ :=
  (afterMean df cp - beforeMean df cp) / (|beforeMean df cp| + eps8) * 100

/-- The body of the `for cp in change_points` loop of
`TrendAnalyzer._generate_alerts` (`trend_utils.py` lines 165-201) for one
change point: split the aggregated frame at `cp`, skip if either side is
empty, compute the percentage change rate of the before/after means (the
four detector classes under analysis define no `calculate_change_rate`
method, so the simple fallback branch of lines 185-188 runs), and keep the
alert iff `abs(change_rate) >= alert_threshold * 100`. -/
def generate_alert_one (alert_threshold : ℚ) (df : List TrendAggRow)
    (cp : ℤ) : Option Alert :=
  if (beforeData df cp).isEmpty || (afterData df cp).isEmpty then none
  else if |alertRate df cp| ≥ alert_threshold * 100 then
    some
      { change_point := cp
        change_type :=
          if alertRate df cp > 0 then ChangeType.increase
          else ChangeType.decrease
        change_rate := |alertRate df cp|
        previous_sentiment := beforeMean df cp
        current_sentiment := afterMean df cp }
  else none

/-- `TrendAnalyzer._generate_alerts`: the loop over all change points. -/
def generate_alerts (alert_threshold : ℚ) (df : List TrendAggRow)
    (cps : List ℤ) : List Alert :=
  cps.filterMap (generate_alert_one alert_threshold df)

end TrendAnalyzer

/-! ### Real-valued statistics shared by the advanced detectors

`CUSUMDetector`, `ZScoreDetector` and `BayesianChangeDetector`
(`advanced_change_detectors.py`) use `np.mean`, `np.std`, `np.var` and
`np.exp`; square roots and exponentials force the model into `ℝ`. -/

/-- `np.mean` over a real list.  NumPy returns `NaN` on an empty array; `ℝ`
has no `NaN`, so the model yields the junk value `0` there (Lean's `x / 0 =
0` convention) — theorems about the empty case are stated on the slice
itself instead. -/
noncomputable def npMean (l : List ℝ) : ℝ :=
  l.sum / l.length

/-- `np.var`: population variance (mean squared deviation). -/
noncomputable def npVar (l : List ℝ) : ℝ :=
  npMean (l.map (fun x => (x - npMean l) ^ 2))

/-- `np.std`: population standard deviation. -/
noncomputable def npStd (l : List ℝ) : ℝ :=
  Real.sqrt (npVar l)

/-- The `1e-8` constant of the advanced detectors, over `ℝ`. -/
noncomputable def eps8R : ℝ :=
  1 / 100000000

namespace CUSUMDetector

/-- Detector state set by `CUSUMDetector.__init__`
(`advanced_change_detectors.py` lines 20-29): two plain assignments,
no validation. -/
structure Config where
  threshold : ℝ
  drift : ℝ

/-- `CUSUMDetector.__init__(threshold, drift)`. -/
def init (threshold drift : ℝ) : Config :=
  { threshold := threshold, drift := drift }

/-- The running statistic `S_plus` of `_cusum_detect` (lines 98-102):
`S_plus[0] = 0`, `S_plus[i] = max(0, S_plus[i-1] + normalized[i] - drift)`. -/
noncomputable def sPlus (k : ℝ) (xs : List ℝ) : ℕ → ℝ
  | 0 => 0
  | i + 1 => max 0 (sPlus k xs i + xs.getD (i + 1) 0 - k)

/-- The running statistic `S_minus` of `_cusum_detect` (lines 98-103):
`S_minus[0] = 0`, `S_minus[i] = max(0, S_minus[i-1] - normalized[i] - drift)`. -/
noncomputable def sMinus (k : ℝ) (xs : List ℝ) : ℕ → ℝ
  | 0 => 0
  | i + 1 => max 0 (sMinus k xs i - xs.getD (i + 1) 0 - k)

/-- The reporting slice `values[max(0, i-5) : i]` of `_cusum_detect`
(lines 118-121). -/
def prevSlice (values : List ℝ) (i : ℕ) : List ℝ :=
  (values.take i).drop (i - 5)

/-- The reporting slice `values[i : min(n-1, i+5)]` of `_cusum_detect`
(lines 119-122). -/
def currSlice (values : List ℝ) (i : ℕ) : List ℝ :=
  (values.drop i).take (min (values.length - 1) (i + 5) - i)

/-- One change point emitted by `_cusum_detect`
(dict literal at lines 124-132). -/
structure CP where
  change_point : ℤ
  previous_score : ℝ
  current_score : ℝ
  change_rate : ℝ
  change_type : ChangeType
  change_magnitude : ℝ
deriving Inhabited

/-- The dict built at a triggering index `i` of `_cusum_detect`
(lines 107-132): the direction comes from which statistic exceeded the
threshold (`S_plus` wins when both do), the reported scores are the means
of the two reporting slices. -/
noncomputable def mkCP (cfg : Config) (values : List ℝ) (ts : List ℤ)
    (normalized : List ℝ) (i : ℕ) : CP :=
  { change_point := ts.getD i 0
    previous_score := npMean (prevSlice values i)
    current_score := npMean (currSlice values i)
    change_rate :=
      |npMean (currSlice values i) - npMean (prevSlice values i)| /
        (|npMean (prevSlice values i)| + eps8R)
    change_type :=
      if sPlus cfg.drift normalized i > cfg.threshold then ChangeType.increase
      else ChangeType.decrease
    change_magnitude :=
      if sPlus cfg.drift normalized i > cfg.threshold then
        sPlus cfg.drift normalized i
      else sMinus cfg.drift normalized i }

/-- `CUSUMDetector._cusum_detect` (lines 72-134): guard on fewer than 3
values, normalize by the global mean/std (skip entirely when the std is
below `1e-8`), then scan `i in range(1, n)` and emit wherever `S_plus[i]`
or `S_minus[i]` exceeds the threshold. -/
noncomputable def cusum_detect (cfg : Config) (values : List ℝ)
    (ts : List ℤ) : List CP :=
  if values.length < 3 then []
  else
    let mean := npMean values
    let std := npStd values
    if std < eps8R then []
    else
      let normalized := values.map (fun x => (x - mean) / std)
      (List.range' 1 (values.length - 1)).filterMap (fun i =>
        if sPlus cfg.drift normalized i > cfg.threshold ∨
            sMinus cfg.drift normalized i > cfg.threshold then
          some (mkCP cfg values ts normalized i)
        else none)

end CUSUMDetector

namespace ZScoreDetector

/-- Detector state set by `ZScoreDetector.__init__` (lines 147-156):
two plain assignments, no validation. -/
structure Config where
  z_threshold : ℝ
  window_size : ℕ

/-- `ZScoreDetector.__init__(z_threshold, window_size)`. -/
def init (z_threshold : ℝ) (window_size : ℕ) : Config :=
  { z_threshold := z_threshold, window_size := window_size }

/-- The reference window `values[i - window_size : i]` (line 219). -/
def prevWindow (w : ℕ) (values : List ℝ) (i : ℕ) : List ℝ :=
  (values.take i).drop (i - w)

/-- The current window `values[i : i + window_size]` (line 227). -/
def currWindow (w : ℕ) (values : List ℝ) (i : ℕ) : List ℝ :=
  (values.drop i).take w

/-- One change point emitted by `_zscore_detect`
(dict literal at lines 237-245). -/
structure CP where
  change_point : ℤ
  previous_score : ℝ
  current_score : ℝ
  change_rate : ℝ
  change_type : ChangeType
  z_score : ℝ

/-- One iteration of the `for i in range(window_size, n - window_size)` loop
of `_zscore_detect` (lines 217-245): skip when the reference window's std is
below `1e-8`, emit when the z-score strictly exceeds the threshold. -/
noncomputable def zStep (cfg : Config) (values : List ℝ) (ts : List ℤ)
    (i : ℕ) : Option CP :=
  let pm := npMean (prevWindow cfg.window_size values i)
  let ps := npStd (prevWindow cfg.window_size values i)
  if ps < eps8R then none
  else
    let cm := npMean (currWindow cfg.window_size values i)
    let z := |cm - pm| / ps
    if z > cfg.z_threshold then
      some
        { change_point := ts.getD i 0
          previous_score := pm
          current_score := cm
          change_rate := |cm - pm| / (|pm| + eps8R)
          change_type :=
            if cm > pm then ChangeType.increase else ChangeType.decrease
          z_score := z }
    else none

/-- `ZScoreDetector._zscore_detect` (lines 199-247): guard on fewer than
`window_size + 1` values, then slide over `range(window_size, n - window_size)`. -/
noncomputable def zscore_detect (cfg : Config) (values : List ℝ)
    (ts : List ℤ) : List CP :=
  if values.length < cfg.window_size + 1 then []
  else
    (List.range' cfg.window_size
        (values.length - 2 * cfg.window_size)).filterMap
      (zStep cfg values ts)

end ZScoreDetector

namespace BayesianChangeDetector

/-- Detector state set by `BayesianChangeDetector.__init__` (lines 260-269):
two plain assignments, no validation. -/
structure Config where
  prior_prob : ℝ
  min_segment_length : ℕ

/-- `BayesianChangeDetector.__init__(prior_probability, min_segment_length)`. -/
def init (prior_probability : ℝ) (min_segment_length : ℕ) : Config :=
  { prior_prob := prior_probability, min_segment_length := min_segment_length }

/-- The posterior computed for an in-range index `i` by
`_calculate_change_probabilities` (lines 393-413): sigmoid likelihood of the
normalized mean gap between the two adjacent segments, combined with the
prior via Bayes' rule.  (The per-segment variances computed there are dead
locals in the source and are not modelled.) -/
noncomputable def posteriorAt (cfg : Config) (values : List ℝ) (i : ℕ) : ℝ :=
  let m := cfg.min_segment_length
  let prev_mean := npMean ((values.take i).drop (i - m))
  let next_mean := npMean ((values.drop i).take m)
  let normalized_diff := |next_mean - prev_mean| / (Real.sqrt (npVar values) + eps8R)
  let likelihood := 1 / (1 + Real.exp (-normalized_diff))
  cfg.prior_prob * likelihood /
    (cfg.prior_prob * likelihood + (1 - cfg.prior_prob) * (1 - likelihood))

/-- `BayesianChangeDetector._calculate_change_probabilities` (lines 372-415):
an all-zero array when the global variance is below `1e-8`, otherwise the
posterior at every index of `range(min_segment_length, n - min_segment_length)`
and `0` elsewhere. -/
noncomputable def calculate_change_probabilities (cfg : Config)
    (values : List ℝ) : List ℝ :=
  let n := values.length
  if npVar values < eps8R then List.replicate n 0
  else
    (List.range n).map (fun i =>
      if cfg.min_segment_length ≤ i ∧ i < n - cfg.min_segment_length then
        posteriorAt cfg values i
      else 0)

/-- The greedy minimum-spacing filter of `_bayesian_detect` (lines 334-341):
walk the candidate indices in order, keeping one whenever it is at least
`min_segment_length` past the last kept one; `last` starts at
`-min_segment_length` so the first candidate is always kept. -/
def greedyFilterIdx (m : ℕ) : ℤ → List ℕ → List ℕ
  | _, [] => []
  | last, i :: rest =>
    if (m : ℤ) ≤ (i : ℤ) - last then i :: greedyFilterIdx m (i : ℤ) rest
    else greedyFilterIdx m last rest

/-- One change point emitted by `_bayesian_detect`
(dict literal at lines 360-368). -/
structure CP where
  change_point : ℤ
  previous_score : ℝ
  current_score : ℝ
  change_rate : ℝ
  change_type : ChangeType
  posterior_probability : ℝ

/-- `BayesianChangeDetector._bayesian_detect` (lines 312-370), with each
emitted change point paired with the series index it was emitted at (the
index drives the loop in the source; it is carried here so spacing theorems
can speak about it).  Candidates are the indices whose posterior exceeds
`2 * prior`, greedily spaced, and boundary indices are skipped at emission. -/
noncomputable def bayesian_detect_idx (cfg : Config) (values : List ℝ)
    (ts : List ℤ) : List (ℕ × CP) :=
  let n := values.length
  let m := cfg.min_segment_length
  if n < 2 * m then []
  else
    let probs := calculate_change_probabilities cfg values
    let change_indices :=
      (List.range n).filter (fun i => decide (probs.getD i 0 > cfg.prior_prob * 2))
    let filtered := greedyFilterIdx m (-(m : ℤ)) change_indices
    filtered.filterMap (fun idx =>
      if idx < m ∨ n - m ≤ idx then none
      else
        let prev_score := npMean ((values.take idx).drop (idx - m))
        let curr_score := npMean ((values.drop idx).take (min n (idx + m) - idx))
        some (idx,
          { change_point := ts.getD idx 0
            previous_score := prev_score
            current_score := curr_score
            change_rate := |curr_score - prev_score| / (|prev_score| + eps8R)
            change_type :=
              if curr_score > prev_score then ChangeType.increase
              else ChangeType.decrease
            posterior_probability := probs.getD idx 0 }))

/-- The change-point list `_bayesian_detect` actually returns. -/
noncomputable def bayesian_detect (cfg : Config) (values : List ℝ)
    (ts : List ℤ) : List CP :=
  (bayesian_detect_idx cfg values ts).map Prod.snd

end BayesianChangeDetector

/-! ### The `detect_changes` wrappers of the advanced detectors

Each of `CUSUMDetector.detect_changes`, `ZScoreDetector.detect_changes` and
`BayesianChangeDetector.detect_changes` guards on the input length, then runs
its whole pipeline inside `try: ... except Exception: return []`.  An input
item is a dict; the pipeline reads the keys `analyzed_at`, `positive_score`,
`negative_score`, `neutral_score`, and a missing column raises `KeyError`
inside the `try`.  The model gives items `Option` fields and the pipeline the
type `Except String _`; the per-item strict lookup models the `KeyError`
path (pandas' NaN-filling for a key present in only some items is a float
behaviour outside this rational model). -/

/-- An input dict as received by the advanced detectors: every expected
column may be absent. -/
structure RawItem where
  analyzed_at : Option ℤ
  positive_score : Option ℚ
  negative_score : Option ℚ
  neutral_score : Option ℚ
deriving DecidableEq, Repr

/-- Column lookup: `KeyError` becomes `Except.error` naming the column. -/
def getCol {α : Type} (name : String) (o : Option α) : Except String α :=
  match o with
  | some v => Except.ok v
  | none => Except.error name

/-- Extraction of the four columns the detectors read from one item. -/
def extractItem (it : RawItem) : Except String SentimentItem := do
  let t ← getCol "analyzed_at" it.analyzed_at
  let p ← getCol "positive_score" it.positive_score
  let n ← getCol "negative_score" it.negative_score
  let u ← getCol "neutral_score" it.neutral_score
  pure { analyzed_at := t, positive_score := p, negative_score := n,
         neutral_score := u }

/-- The sort `df = df.sort_values('analyzed_at')` shared by the three
advanced `detect_changes` bodies. -/
def sortByTime (items : List SentimentItem) : List SentimentItem :=
  List.insertionSort (fun a b => a.analyzed_at ≤ b.analyzed_at) items

namespace CUSUMDetector

/-- The body of the `try` block of `CUSUMDetector.detect_changes`
(lines 44-66): build the frame (column extraction may raise), sort by
timestamp, compute the scalar scores, run `_cusum_detect`. -/
noncomputable def inner (cfg : Config) (data : List RawItem) :
    Except String (List CP) :=
  (data.mapM extractItem).map (fun items =>
    let sorted := sortByTime items
    cusum_detect cfg (sorted.map (fun it => ((it.score : ℚ) : ℝ)))
      (sorted.map (·.analyzed_at)))

/-- `CUSUMDetector.detect_changes` (lines 31-70): length guard, then the
`try/except` — any exception from the pipeline is caught and turned into
an empty list. -/
noncomputable def detect_changes (cfg : Config) (data : List RawItem) :
    List CP :=
  if data.length < 3 then []
  else
    match inner cfg data with
    | Except.ok r => r
    | Except.error _ => []

end CUSUMDetector

namespace ZScoreDetector

/-- The body of the `try` block of `ZScoreDetector.detect_changes`
(lines 171-193). -/
noncomputable def inner (cfg : Config) (data : List RawItem) :
    Except String (List CP) :=
  (data.mapM extractItem).map (fun items =>
    let sorted := sortByTime items
    zscore_detect cfg (sorted.map (fun it => ((it.score : ℚ) : ℝ)))
      (sorted.map (·.analyzed_at)))

/-- `ZScoreDetector.detect_changes` (lines 158-197): length guard, then the
`try/except` — any exception from the pipeline is caught and turned into
an empty list. -/
noncomputable def detect_changes (cfg : Config) (data : List RawItem) :
    List CP :=
  if data.length < cfg.window_size + 1 then []
  else
    match inner cfg data with
    | Except.ok r => r
    | Except.error _ => []

end ZScoreDetector

namespace BayesianChangeDetector

/-- The body of the `try` block of `BayesianChangeDetector.detect_changes`
(lines 284-306). -/
noncomputable def inner (cfg : Config) (data : List RawItem) :
    Except String (List CP) :=
  (data.mapM extractItem).map (fun items =>
    let sorted := sortByTime items
    bayesian_detect cfg (sorted.map (fun it => ((it.score : ℚ) : ℝ)))
      (sorted.map (·.analyzed_at)))

/-- `BayesianChangeDetector.detect_changes` (lines 271-310): length guard,
then the `try/except` — any exception from the pipeline is caught and
turned into an empty list. -/
noncomputable def detect_changes (cfg : Config) (data : List RawItem) :
    List CP :=
  if data.length < cfg.min_segment_length * 2 then []
  else
    match inner cfg data with
    | Except.ok r => r
    | Except.error _ => []

end BayesianChangeDetector

/-! ## Theorems -/

/-- C2: the scalarizer is a pure function equal to `positive - negative`
(neutral has weight 0); on triples with all three components in `[0, 1]`
the result lies in `[-1, 1]`; and the three anchor values hold. -/
theorem C2_scalarizer_formula_range :
    (∀ p n u : ℚ, calculateSentimentScore p n u = p - n) ∧
    (∀ p n u : ℚ, 0 ≤ p → p ≤ 1 → 0 ≤ n → n ≤ 1 → 0 ≤ u → u ≤ 1 →
      -1 ≤ calculateSentimentScore p n u ∧ calculateSentimentScore p n u ≤ 1) ∧
    calculateSentimentScore 1 0 0 = 1 ∧
    calculateSentimentScore 0 1 0 = -1 ∧
    calculateSentimentScore 0 0 1 = 0 := by
  refine ⟨fun p n u => by unfold calculateSentimentScore; ring,
    fun p n u hp0 hp1 hn0 hn1 hu0 hu1 => ?_,
    by norm_num [calculateSentimentScore],
    by norm_num [calculateSentimentScore],
    by norm_num [calculateSentimentScore]⟩
  unfold calculateSentimentScore
  constructor <;> nlinarith

/-- C2 witness: the bounded-range part of `C2_scalarizer_formula_range`
evaluated at the concrete triple `(3/4, 1/4, 0)`. -/
theorem C2_scalarizer_witness :
    ((0:ℚ) ≤ 3/4 ∧ (3/4:ℚ) ≤ 1 ∧ (0:ℚ) ≤ 1/4 ∧ (1/4:ℚ) ≤ 1) ∧
    -1 ≤ calculateSentimentScore (3/4) (1/4) 0 ∧
    calculateSentimentScore (3/4) (1/4) 0 ≤ 1 :=
  ⟨by norm_num,
   C2_scalarizer_formula_range.2.1 (3/4) (1/4) 0 (by norm_num) (by norm_num)
     (by norm_num) (by norm_num) (by norm_num) (by norm_num)⟩

/-- C5 counterexample: constructing a detector with an invalid
configuration (zero window width, negative threshold) does NOT fail — the
constructors are plain attribute assignments, the invalid values are stored
verbatim, and the simple detector happily runs with a negative threshold,
emitting a change point even on perfectly flat data (change rate `0 > -1`). -/
theorem C5_counterexample_no_validation :
    SimpleChangeDetector.init 0 (-1) =
      { window_minutes := 0, threshold := -1 } ∧
    CUSUMDetector.init (-5) (1/2) = { threshold := -5, drift := 1/2 } ∧
    SimpleChangeDetector.detect_changes (SimpleChangeDetector.init 10 (-1))
      [{ analyzed_at := 0, positive_score := 1, negative_score := 0,
         neutral_score := 0 },
       { analyzed_at := 10, positive_score := 1, negative_score := 0,
         neutral_score := 0 }] =
      [{ change_point := 10, previous_score := 1, current_score := 1,
         change_rate := 0, change_type := ChangeType.decrease,
         window_start := 0, window_end := 10 }] :=
  ⟨rfl, rfl, by with_unfolding_all decide⟩

/-- C5 as amended: detector construction never fails and never validates —
`__init__` stores whatever it is given (negative thresholds, zero window
widths included), and the stored invalid value is then used as-is by
detection (with a negative threshold the simple detector emits on flat
data, since `0 > t`). -/
theorem C5_amended_init_accepts_anything :
    (∀ (w : ℤ) (t : ℚ), SimpleChangeDetector.init w t =
      { window_minutes := w, threshold := t }) ∧
    (∀ h k : ℝ, CUSUMDetector.init h k = { threshold := h, drift := k }) ∧
    (∀ t : ℚ, t < 0 →
      SimpleChangeDetector.detect_changes (SimpleChangeDetector.init 10 t)
        [{ analyzed_at := 0, positive_score := 1, negative_score := 0,
           neutral_score := 0 },
         { analyzed_at := 10, positive_score := 1, negative_score := 0,
           neutral_score := 0 }] =
        [{ change_point := 10, previous_score := 1, current_score := 1,
           change_rate := 0, change_type := ChangeType.decrease,
           window_start := 0, window_end := 10 }]) := by
  refine ⟨fun w t => rfl, fun h k => rfl, fun t ht => ?_⟩
  have hg : SimpleChangeDetector.aggregate_by_window 10
      [{ analyzed_at := 0, positive_score := 1, negative_score := 0,
         neutral_score := 0 },
       { analyzed_at := 10, positive_score := 1, negative_score := 0,
         neutral_score := 0 }] =
      [{ time_window := 0, mean_sentiment := 1, count := 1 },
       { time_window := 10, mean_sentiment := 1, count := 1 }] := by
    with_unfolding_all decide
  have hcr : SimpleChangeDetector.changeRate 1 1 = 0 := by
    with_unfolding_all decide
  have hstep : SimpleChangeDetector.stepCP t
      { time_window := 0, mean_sentiment := 1, count := 1 }
      { time_window := 10, mean_sentiment := 1, count := 1 } =
      some { change_point := 10, previous_score := 1, current_score := 1,
             change_rate := 0, change_type := ChangeType.decrease,
             window_start := 0, window_end := 10 } := by
    simp only [SimpleChangeDetector.stepCP, hcr]
    rw [if_pos ht, if_neg (lt_irrefl (1 : ℚ))]
  unfold SimpleChangeDetector.detect_changes
  simp only [SimpleChangeDetector.init]
  rw [if_neg (by decide), hg, if_neg (by decide)]
  unfold SimpleChangeDetector.detectLoop
  norm_num [List.range', List.filterMap_cons, List.getD_cons_succ,
    List.getD_cons_zero, hstep]

/-- C5 amended witness: `C5_amended_init_accepts_anything` applied at the
concrete invalid threshold `-1`. -/
theorem C5_amended_witness :
    (-1 : ℚ) < 0 ∧
    SimpleChangeDetector.detect_changes (SimpleChangeDetector.init 10 (-1))
      [{ analyzed_at := 0, positive_score := 1, negative_score := 0,
         neutral_score := 0 },
       { analyzed_at := 10, positive_score := 1, negative_score := 0,
         neutral_score := 0 }] =
      [{ change_point := 10, previous_score := 1, current_score := 1,
         change_rate := 0, change_type := ChangeType.decrease,
         window_start := 0, window_end := 10 }] :=
  ⟨by norm_num, C5_amended_init_accepts_anything.2.2 (-1) (by norm_num)⟩

/-- C9: for each of the three advanced detectors, whenever the pipeline
inside the `try` block fails (e.g. a missing input column), the public
`detect_changes` catches the exception and returns the empty list; being a
total function of its list input, it never propagates an exception. -/
theorem C9_detect_changes_catches_errors :
    (∀ (cfg : CUSUMDetector.Config) (data : List RawItem) (e : String),
      CUSUMDetector.inner cfg data = Except.error e →
      CUSUMDetector.detect_changes cfg data = []) ∧
    (∀ (cfg : ZScoreDetector.Config) (data : List RawItem) (e : String),
      ZScoreDetector.inner cfg data = Except.error e →
      ZScoreDetector.detect_changes cfg data = []) ∧
    (∀ (cfg : BayesianChangeDetector.Config) (data : List RawItem) (e : String),
      BayesianChangeDetector.inner cfg data = Except.error e →
      BayesianChangeDetector.detect_changes cfg data = []) := by
  refine ⟨fun cfg data e h => ?_, fun cfg data e h => ?_, fun cfg data e h => ?_⟩
  · unfold CUSUMDetector.detect_changes
    split
    · rfl
    · rw [h]
  · unfold ZScoreDetector.detect_changes
    split
    · rfl
    · rw [h]
  · unfold BayesianChangeDetector.detect_changes
    split
    · rfl
    · rw [h]

/-- C9 witness: three items all missing `positive_score` make the pipeline
fail with that column name for each detector, and each `detect_changes`
returns `[]`. -/
theorem C9_witness :
    (CUSUMDetector.inner { threshold := 5, drift := 1/2 }
        [{ analyzed_at := some 0, positive_score := none,
           negative_score := some 0, neutral_score := some 0 },
         { analyzed_at := some 1, positive_score := none,
           negative_score := some 0, neutral_score := some 0 },
         { analyzed_at := some 2, positive_score := none,
           negative_score := some 0, neutral_score := some 0 }] =
      Except.error "positive_score" ∧
      CUSUMDetector.detect_changes { threshold := 5, drift := 1/2 }
        [{ analyzed_at := some 0, positive_score := none,
           negative_score := some 0, neutral_score := some 0 },
         { analyzed_at := some 1, positive_score := none,
           negative_score := some 0, neutral_score := some 0 },
         { analyzed_at := some 2, positive_score := none,
           negative_score := some 0, neutral_score := some 0 }] = []) ∧
    (ZScoreDetector.detect_changes { z_threshold := 5/2, window_size := 1 }
        [{ analyzed_at := some 0, positive_score := none,
           negative_score := some 0, neutral_score := some 0 },
         { analyzed_at := some 1, positive_score := none,
           negative_score := some 0, neutral_score := some 0 },
         { analyzed_at := some 2, positive_score := none,
           negative_score := some 0, neutral_score := some 0 }] = []) ∧
    (BayesianChangeDetector.detect_changes
        { prior_prob := 1/100, min_segment_length := 1 }
        [{ analyzed_at := some 0, positive_score := none,
           negative_score := some 0, neutral_score := some 0 },
         { analyzed_at := some 1, positive_score := none,
           negative_score := some 0, neutral_score := some 0 },
         { analyzed_at := some 2, positive_score := none,
           negative_score := some 0, neutral_score := some 0 }] = []) :=
  ⟨⟨rfl, C9_detect_changes_catches_errors.1 _ _ "positive_score" rfl⟩,
   C9_detect_changes_catches_errors.2.1 _ _ "positive_score" rfl,
   C9_detect_changes_catches_errors.2.2 _ _ "positive_score" rfl⟩

/-- Raising the alert threshold can only turn an emitted alert into a
skipped one: the empty-side guard does not depend on the threshold, and the
magnitude test is monotone in it. -/
theorem TrendAnalyzer.generate_alert_one_isSome_mono {t1 t2 : ℚ} (h : t1 ≤ t2)
    (df : List TrendAggRow) (c : ℤ) :
    (TrendAnalyzer.generate_alert_one t2 df c).isSome = true →
    (TrendAnalyzer.generate_alert_one t1 df c).isSome = true := by
  unfold TrendAnalyzer.generate_alert_one
  intro hs
  split at hs
  · simp at hs
  · rename_i h0
    rw [if_neg h0]
    split at hs
    · rename_i hth
      rw [if_pos (le_trans (mul_le_mul_of_nonneg_right h (by norm_num)) hth)]
      rfl
    · simp at hs

/-- Length monotonicity of `_generate_alerts` in the alert threshold. -/
theorem TrendAnalyzer.generate_alerts_length_mono {t1 t2 : ℚ} (h : t1 ≤ t2)
    (df : List TrendAggRow) (cps : List ℤ) :
    (TrendAnalyzer.generate_alerts t2 df cps).length ≤
      (TrendAnalyzer.generate_alerts t1 df cps).length := by
  unfold TrendAnalyzer.generate_alerts
  induction cps with
  | nil => simp
  | cons c rest ih =>
    rw [List.filterMap_cons, List.filterMap_cons]
    cases h2 : TrendAnalyzer.generate_alert_one t2 df c with
    | none =>
      cases h1 : TrendAnalyzer.generate_alert_one t1 df c with
      | none => exact ih
      | some b => exact le_trans ih (by simp)
    | some a =>
      have hmono := TrendAnalyzer.generate_alert_one_isSome_mono h df c
        (by rw [h2]; rfl)
      cases h1 : TrendAnalyzer.generate_alert_one t1 df c with
      | none => rw [h1] at hmono; simp at hmono
      | some b => simpa using Nat.succ_le_succ ih

/-- C8: for a fixed aggregated series and a fixed change-point set, the
number of alerts produced by `TrendAnalyzer._generate_alerts` is monotone
non-increasing in the alert threshold. -/
theorem C8_alert_threshold_monotonicity :
    ∀ (df : List TrendAggRow) (cps : List ℤ) (t1 t2 : ℚ), t1 ≤ t2 →
      (TrendAnalyzer.generate_alerts t2 df cps).length ≤
        (TrendAnalyzer.generate_alerts t1 df cps).length :=
  fun df cps t1 t2 h => TrendAnalyzer.generate_alerts_length_mono h df cps

/-- C8 witness: `C8_alert_threshold_monotonicity` at a concrete series,
change point and threshold pair `1/2 ≤ 1`. -/
theorem C8_witness :
    (1/2 : ℚ) ≤ 1 ∧
    (TrendAnalyzer.generate_alerts 1
        [{ analyzed_at := 0, sentiment_score := 0 },
         { analyzed_at := 10, sentiment_score := 1 }] [10]).length ≤
      (TrendAnalyzer.generate_alerts (1/2)
        [{ analyzed_at := 0, sentiment_score := 0 },
         { analyzed_at := 10, sentiment_score := 1 }] [10]).length :=
  ⟨by norm_num, C8_alert_threshold_monotonicity _ _ _ _ (by norm_num)⟩

/-- The window keys of the simple detector's grouping are weakly sorted. -/
theorem SimpleChangeDetector.windowKeys_sorted_le (w : ℤ)
    (data : List SentimentItem) :
    (SimpleChangeDetector.windowKeys w data).Sorted (· ≤ ·) :=
  List.sorted_insertionSort _ _

/-- The window keys are a permutation of the deduplicated floored
timestamps. -/
theorem SimpleChangeDetector.windowKeys_perm (w : ℤ)
    (data : List SentimentItem) :
    (SimpleChangeDetector.windowKeys w data).Perm
      ((data.map (fun it => floorToWindow w it.analyzed_at)).dedup) :=
  List.perm_insertionSort _ _

/-- The window keys contain no duplicates. -/
theorem SimpleChangeDetector.windowKeys_nodup (w : ℤ)
    (data : List SentimentItem) :
    (SimpleChangeDetector.windowKeys w data).Nodup :=
  ((SimpleChangeDetector.windowKeys_perm w data).nodup_iff).mpr
    (List.nodup_dedup _)

/-- The window keys are strictly sorted. -/
theorem SimpleChangeDetector.windowKeys_sorted_lt (w : ℤ)
    (data : List SentimentItem) :
    (SimpleChangeDetector.windowKeys w data).Sorted (· < ·) :=
  (SimpleChangeDetector.windowKeys_sorted_le w data).lt_of_le
    (SimpleChangeDetector.windowKeys_nodup w data)

/-- A key appears in the grouping exactly when some input sample floors to
it — i.e. exactly the non-empty windows appear. -/
theorem SimpleChangeDetector.mem_windowKeys (w : ℤ)
    (data : List SentimentItem) (k : ℤ) :
    k ∈ SimpleChangeDetector.windowKeys w data ↔
      ∃ it ∈ data, floorToWindow w it.analyzed_at = k := by
  rw [(SimpleChangeDetector.windowKeys_perm w data).mem_iff, List.mem_dedup,
    List.mem_map]

/-- The `time_window` column of the grouped frame is exactly the key list. -/
theorem SimpleChangeDetector.aggregate_map_time_window (w : ℤ)
    (data : List SentimentItem) :
    (SimpleChangeDetector.aggregate_by_window w data).map (·.time_window) =
      SimpleChangeDetector.windowKeys w data := by
  unfold SimpleChangeDetector.aggregate_by_window
  rw [List.map_map]
  exact List.map_id _

/-- Each grouped row's `count` is the number of input samples flooring to
its window, and is at least 1. -/
theorem SimpleChangeDetector.aggregate_row_spec (w : ℤ)
    (data : List SentimentItem) :
    ∀ row ∈ SimpleChangeDetector.aggregate_by_window w data,
      row.count = (data.filter
        (fun it => floorToWindow w it.analyzed_at == row.time_window)).length ∧
      1 ≤ row.count := by
  intro row hrow
  unfold SimpleChangeDetector.aggregate_by_window at hrow
  rw [List.mem_map] at hrow
  obtain ⟨k, hk, hrk⟩ := hrow
  subst hrk
  refine ⟨rfl, ?_⟩
  rw [SimpleChangeDetector.mem_windowKeys] at hk
  obtain ⟨it, hit, hfl⟩ := hk
  have hmem : it ∈ data.filter
      (fun it => floorToWindow w it.analyzed_at == k) := by
    rw [List.mem_filter]
    exact ⟨hit, by simp [hfl]⟩
  have hpos := List.length_pos.mpr (List.ne_nil_of_mem hmem)
  exact hpos

/-- The counts of the grouped frame sum to the input length: grouping drops
no sample. -/
theorem SimpleChangeDetector.aggregate_counts_sum (w : ℤ)
    (data : List SentimentItem) :
    ((SimpleChangeDetector.aggregate_by_window w data).map (·.count)).sum =
      data.length := by
  unfold SimpleChangeDetector.aggregate_by_window
  rw [List.map_map]
  have hcnt : ∀ k : ℤ,
      (data.filter (fun it => floorToWindow w it.analyzed_at == k)).length =
      List.count k (data.map (fun it => floorToWindow w it.analyzed_at)) := by
    intro k
    rw [List.count_eq_countP, List.countP_map, List.countP_eq_length_filter]
    rfl
  calc ((SimpleChangeDetector.windowKeys w data).map
          ((fun row : AggWindow => row.count) ∘ _)).sum
      = ((SimpleChangeDetector.windowKeys w data).map
          (fun k => List.count k
            (data.map (fun it => floorToWindow w it.analyzed_at)))).sum := by
        refine congrArg List.sum (List.map_congr_left fun k _ => ?_)
        exact hcnt k
    _ = (((data.map (fun it => floorToWindow w it.analyzed_at)).dedup).map
          (fun k => List.count k
            (data.map (fun it => floorToWindow w it.analyzed_at)))).sum :=
        ((SimpleChangeDetector.windowKeys_perm w data).map _).sum_eq
    _ = (data.map (fun it => floorToWindow w it.analyzed_at)).length :=
        List.sum_map_count_dedup_eq_length _
    _ = data.length := List.length_map _ _

/-- C1 counterexample: the other aggregation path cited by the claim,
`TimeSeriesAnalyzer.aggregate_sentiment`, groups with
`pd.Grouper(freq=...)`, which bins the whole span from the first to the
last occupied window — an empty interior window is NOT omitted but emitted
as a zero-filled row (`fillna(0)`).  With samples at t = 0 and t = 120 and
a 60-minute window, the output has three rows, including the synthesized
zero row for window 60 although no input floors to 60; it also carries no
`count` column at all. -/
theorem C1_counterexample_aggregate_sentiment_zero_fills :
    TimeSeriesAnalyzer.aggregate_sentiment 60
      [{ analyzed_at := 0, positive_score := 1, negative_score := 0,
         neutral_score := 0 },
       { analyzed_at := 120, positive_score := 1, negative_score := 0,
         neutral_score := 0 }] =
      [{ analyzed_at := 0, positive_score := 1, negative_score := 0,
         neutral_score := 0 },
       { analyzed_at := 60, positive_score := 0, negative_score := 0,
         neutral_score := 0 },
       { analyzed_at := 120, positive_score := 1, negative_score := 0,
         neutral_score := 0 }] ∧
    floorToWindow 60 0 ≠ 60 ∧ floorToWindow 60 120 ≠ 60 :=
  ⟨by with_unfolding_all decide, by decide, by decide⟩

/-- C1 as amended: the invariant holds for the aggregation the detectors
use, `SimpleChangeDetector._aggregate_by_window` — exactly one entry per
window containing at least one sample, in strictly ascending window-start
order, each entry's count equal to the number of samples flooring into its
window (hence at least 1: empty windows never appear), and the counts
summing to the input length.  (`TimeSeriesAnalyzer.aggregate_sentiment`,
also cited by the claim, instead zero-fills interior empty windows and has
no counts — see the counterexample.) -/
theorem C1_amended_aggregate_by_window_invariant :
    ∀ (w : ℤ) (data : List SentimentItem),
      ((SimpleChangeDetector.aggregate_by_window w data).map
        (·.time_window)).Sorted (· < ·) ∧
      (∀ k : ℤ,
        k ∈ (SimpleChangeDetector.aggregate_by_window w data).map
          (·.time_window) ↔
        ∃ it ∈ data, floorToWindow w it.analyzed_at = k) ∧
      (∀ row ∈ SimpleChangeDetector.aggregate_by_window w data,
        row.count = (data.filter
          (fun it =>
            floorToWindow w it.analyzed_at == row.time_window)).length ∧
        1 ≤ row.count) ∧
      ((SimpleChangeDetector.aggregate_by_window w data).map (·.count)).sum =
        data.length := by
  intro w data
  refine ⟨?_, ?_, SimpleChangeDetector.aggregate_row_spec w data,
    SimpleChangeDetector.aggregate_counts_sum w data⟩
  · rw [SimpleChangeDetector.aggregate_map_time_window]
    exact SimpleChangeDetector.windowKeys_sorted_lt w data
  · intro k
    rw [SimpleChangeDetector.aggregate_map_time_window]
    exact SimpleChangeDetector.mem_windowKeys w data k

/-- C1 witness: `C1_amended_aggregate_by_window_invariant` instantiated at
a concrete two-sample input, with the per-row part evaluated at the first
emitted row. -/
theorem C1_witness :
    ({ time_window := 0, mean_sentiment := 1, count := 1 } ∈
      SimpleChangeDetector.aggregate_by_window 10
        [{ analyzed_at := 0, positive_score := 1, negative_score := 0,
           neutral_score := 0 },
         { analyzed_at := 10, positive_score := 1, negative_score := 0,
           neutral_score := 0 }]) ∧
    ((1 : ℕ) =
      ([{ analyzed_at := 0, positive_score := 1, negative_score := 0,
          neutral_score := 0 },
        { analyzed_at := 10, positive_score := 1, negative_score := 0,
          neutral_score := 0 }].filter
        (fun it : SentimentItem => floorToWindow 10 it.analyzed_at == 0)).length ∧
      1 ≤ (1 : ℕ)) ∧
    ((SimpleChangeDetector.aggregate_by_window 10
        [{ analyzed_at := 0, positive_score := 1, negative_score := 0,
           neutral_score := 0 },
         { analyzed_at := 10, positive_score := 1, negative_score := 0,
           neutral_score := 0 }]).map (·.count)).sum = 2 :=
  ⟨by with_unfolding_all decide,
   (C1_amended_aggregate_by_window_invariant 10
       [{ analyzed_at := 0, positive_score := 1, negative_score := 0,
          neutral_score := 0 },
        { analyzed_at := 10, positive_score := 1, negative_score := 0,
          neutral_score := 0 }]).2.2.1
     { time_window := 0, mean_sentiment := 1, count := 1 }
     (by with_unfolding_all decide),
   (C1_amended_aggregate_by_window_invariant 10
       [{ analyzed_at := 0, positive_score := 1, negative_score := 0,
          neutral_score := 0 },
        { analyzed_at := 10, positive_score := 1, negative_score := 0,
          neutral_score := 0 }]).2.2.2⟩

/-- Grouping cannot produce more windows than samples. -/
theorem SimpleChangeDetector.length_aggregate_le (w : ℤ)
    (data : List SentimentItem) :
    (SimpleChangeDetector.aggregate_by_window w data).length ≤ data.length := by
  unfold SimpleChangeDetector.aggregate_by_window
  rw [List.length_map]
  calc (SimpleChangeDetector.windowKeys w data).length
      = ((data.map (fun it => floorToWindow w it.analyzed_at)).dedup).length :=
        (SimpleChangeDetector.windowKeys_perm w data).length_eq
    _ ≤ (data.map (fun it => floorToWindow w it.analyzed_at)).length :=
        (List.dedup_sublist _).length_le
    _ = data.length := List.length_map _ _

/-- When at least two windows exist, `detect_changes` is exactly the
consecutive-pair loop (neither guard fires). -/
theorem SimpleChangeDetector.detect_changes_eq_loop
    (cfg : SimpleChangeDetector.Config) (data : List SentimentItem)
    (h2 : 2 ≤ (SimpleChangeDetector.aggregate_by_window cfg.window_minutes
      data).length) :
    SimpleChangeDetector.detect_changes cfg data =
      SimpleChangeDetector.detectLoop cfg.threshold
        (SimpleChangeDetector.aggregate_by_window cfg.window_minutes data) := by
  have hd : ¬ data.length < 2 :=
    not_lt.mpr (le_trans h2 (SimpleChangeDetector.length_aggregate_le _ _))
  unfold SimpleChangeDetector.detect_changes
  rw [if_neg hd, if_neg (not_lt.mpr h2)]

/-- Membership in the detection loop, unfolded to the index level of
`for i in range(1, len(df_grouped))`. -/
theorem SimpleChangeDetector.mem_detectLoop (t : ℚ) (g : List AggWindow)
    (cp : SimpleChangeDetector.CP) :
    cp ∈ SimpleChangeDetector.detectLoop t g ↔
      ∃ j, 1 ≤ j ∧ j < g.length ∧
        SimpleChangeDetector.stepCP t (g.getD (j - 1) default)
          (g.getD j default) = some cp := by
  unfold SimpleChangeDetector.detectLoop
  rw [List.mem_filterMap]
  constructor
  · rintro ⟨j, hj, hstep⟩
    rw [List.mem_range'] at hj
    obtain ⟨i, hi, rfl⟩ := hj
    exact ⟨1 + 1 * i, by omega, by omega, hstep⟩
  · rintro ⟨j, hj1, hjl, hstep⟩
    refine ⟨j, ?_, hstep⟩
    rw [List.mem_range']
    exact ⟨j - 1, by omega, by omega⟩

/-- Distinct window indices carry distinct window starts (strict sortedness
of the grouped keys). -/
theorem SimpleChangeDetector.time_window_inj (w : ℤ)
    (data : List SentimentItem) {i j : ℕ}
    (hi : i < (SimpleChangeDetector.aggregate_by_window w data).length)
    (hj : j < (SimpleChangeDetector.aggregate_by_window w data).length)
    (heq : ((SimpleChangeDetector.aggregate_by_window w data).getD i
        default).time_window =
      ((SimpleChangeDetector.aggregate_by_window w data).getD j
        default).time_window) :
    i = j := by
  set g := SimpleChangeDetector.aggregate_by_window w data with hgdef
  have hl : (g.map (·.time_window)).Sorted (· < ·) := by
    rw [hgdef, SimpleChangeDetector.aggregate_map_time_window]
    exact SimpleChangeDetector.windowKeys_sorted_lt w data
  have hlen : (g.map (·.time_window)).length = g.length := List.length_map _ _
  have h1 : (g.map (·.time_window)).get ⟨i, by omega⟩ =
      (g.map (·.time_window)).get ⟨j, by omega⟩ := by
    simp only [List.get_eq_getElem, List.getElem_map]
    rw [← List.getD_eq_getElem g default hi, ← List.getD_eq_getElem g default hj]
    exact heq
  have h2 := hl.get_strictMono.injective h1
  simpa using congrArg Fin.val h2

/-- Emission characterization: the change point pairing windows `i` and
`i+1` is in the output exactly when the change rate of that pair strictly
exceeds the threshold. -/
theorem SimpleChangeDetector.record_mem_iff
    (cfg : SimpleChangeDetector.Config) (data : List SentimentItem) (i : ℕ)
    (h : i + 1 <
      (SimpleChangeDetector.aggregate_by_window cfg.window_minutes
        data).length) :
    SimpleChangeDetector.recordAt
        (SimpleChangeDetector.aggregate_by_window cfg.window_minutes data) i ∈
      SimpleChangeDetector.detect_changes cfg data ↔
    SimpleChangeDetector.changeRate
        ((SimpleChangeDetector.aggregate_by_window cfg.window_minutes
          data).getD i default).mean_sentiment
        ((SimpleChangeDetector.aggregate_by_window cfg.window_minutes
          data).getD (i + 1) default).mean_sentiment >
      cfg.threshold := by
  rw [SimpleChangeDetector.detect_changes_eq_loop cfg data (by omega)]
  rw [SimpleChangeDetector.mem_detectLoop]
  constructor
  · rintro ⟨j, hj1, hjl, hstep⟩
    unfold SimpleChangeDetector.stepCP at hstep
    by_cases hc : SimpleChangeDetector.changeRate
        ((SimpleChangeDetector.aggregate_by_window cfg.window_minutes
          data).getD (j - 1) default).mean_sentiment
        ((SimpleChangeDetector.aggregate_by_window cfg.window_minutes
          data).getD j default).mean_sentiment > cfg.threshold
    · rw [if_pos hc] at hstep
      have hcp := Option.some.inj hstep
      have htw : ((SimpleChangeDetector.aggregate_by_window cfg.window_minutes
            data).getD j default).time_window =
          ((SimpleChangeDetector.aggregate_by_window cfg.window_minutes
            data).getD (i + 1) default).time_window :=
        congrArg SimpleChangeDetector.CP.change_point hcp
      have hji : j = i + 1 :=
        SimpleChangeDetector.time_window_inj cfg.window_minutes data hjl
          (by omega) htw
      subst hji
      have hidx : i + 1 - 1 = i := by omega
      rw [hidx] at hc
      exact hc
    · rw [if_neg hc] at hstep
      exact absurd hstep (by simp)
  · intro hrate
    refine ⟨i + 1, by omega, by omega, ?_⟩
    have hidx : i + 1 - 1 = i := by omega
    rw [hidx]
    unfold SimpleChangeDetector.stepCP
    rw [if_pos hrate]
    rfl

/-- Completeness: every emitted change point is the consecutive-pair record
of some window index whose change rate exceeds the threshold. -/
theorem SimpleChangeDetector.detect_complete
    (cfg : SimpleChangeDetector.Config) (data : List SentimentItem) :
    ∀ cp ∈ SimpleChangeDetector.detect_changes cfg data, ∃ i,
      i + 1 < (SimpleChangeDetector.aggregate_by_window cfg.window_minutes
        data).length ∧
      cp = SimpleChangeDetector.recordAt
        (SimpleChangeDetector.aggregate_by_window cfg.window_minutes data) i ∧
      SimpleChangeDetector.changeRate
          ((SimpleChangeDetector.aggregate_by_window cfg.window_minutes
            data).getD i default).mean_sentiment
          ((SimpleChangeDetector.aggregate_by_window cfg.window_minutes
            data).getD (i + 1) default).mean_sentiment >
        cfg.threshold := by
  intro cp hcp
  unfold SimpleChangeDetector.detect_changes at hcp
  by_cases h1 : data.length < 2
  · rw [if_pos h1] at hcp
    exact absurd hcp (List.not_mem_nil cp)
  rw [if_neg h1] at hcp
  by_cases h2 : (SimpleChangeDetector.aggregate_by_window cfg.window_minutes
      data).length < 2
  · rw [if_pos h2] at hcp
    exact absurd hcp (List.not_mem_nil cp)
  rw [if_neg h2] at hcp
  rw [SimpleChangeDetector.mem_detectLoop] at hcp
  obtain ⟨j, hj1, hjl, hstep⟩ := hcp
  unfold SimpleChangeDetector.stepCP at hstep
  by_cases hc : SimpleChangeDetector.changeRate
      ((SimpleChangeDetector.aggregate_by_window cfg.window_minutes
        data).getD (j - 1) default).mean_sentiment
      ((SimpleChangeDetector.aggregate_by_window cfg.window_minutes
        data).getD j default).mean_sentiment > cfg.threshold
  · rw [if_pos hc] at hstep
    have hidx : j - 1 + 1 = j := by omega
    refine ⟨j - 1, by omega, ?_, ?_⟩
    · unfold SimpleChangeDetector.recordAt
      rw [hidx]
      exact (Option.some.inj hstep).symm
    · rw [hidx]
      exact hc
  · rw [if_neg hc] at hstep
    exact absurd hstep (by simp)

/-- Evaluation of the grouping on the canonical boundary scenario: one
sample of scalar score 1 in window 0 and one of scalar score `c` in window
10 (both items carry the score in `positive_score`). -/
theorem SimpleChangeDetector.aggregate_pair (c : ℚ) :
    SimpleChangeDetector.aggregate_by_window 10
      [{ analyzed_at := 0, positive_score := 1, negative_score := 0,
         neutral_score := 0 },
       { analyzed_at := 10, positive_score := c, negative_score := 0,
         neutral_score := 0 }] =
      [{ time_window := 0, mean_sentiment := 1, count := 1 },
       { time_window := 10, mean_sentiment := c, count := 1 }] := by
  have hk : SimpleChangeDetector.windowKeys 10
      [{ analyzed_at := 0, positive_score := 1, negative_score := 0,
         neutral_score := 0 },
       { analyzed_at := 10, positive_score := c, negative_score := 0,
         neutral_score := 0 }] = [0, 10] := by
    unfold SimpleChangeDetector.windowKeys
    simp only [List.map_cons, List.map_nil]
    decide
  have hf0 : floorToWindow 10 0 = 0 := by decide
  have hf10 : floorToWindow 10 10 = 10 := by decide
  unfold SimpleChangeDetector.aggregate_by_window
  rw [hk]
  simp only [List.map_cons, List.map_nil, List.filter_cons, List.filter_nil,
    hf0, hf10, beq_iff_eq]
  norm_num [SentimentItem.score, calculateSentimentScore, listMeanQ]

/-- C3 counterexample: the claim's "with curr = 1.0 + threshold - ε (ε > 0)
none is emitted" fails for large ε.  With threshold 3/10 and ε = 1, the
current window mean is `1 + 3/10 - 1 = 3/10`, the change rate is
`|3/10 - 1| / |1| = 7/10 > 3/10`, and a change point IS emitted. -/
theorem C3_counterexample_large_epsilon :
    (0 : ℚ) < 1 ∧ (3 : ℚ)/10 = 1 + 3/10 - 1 ∧
    SimpleChangeDetector.detect_changes
        { window_minutes := 10, threshold := 3/10 }
        [{ analyzed_at := 0, positive_score := 1, negative_score := 0,
           neutral_score := 0 },
         { analyzed_at := 10, positive_score := 3/10, negative_score := 0,
           neutral_score := 0 }] =
      [{ change_point := 10, previous_score := 1, current_score := 3/10,
         change_rate := 7/10, change_type := ChangeType.decrease,
         window_start := 0, window_end := 10 }] :=
  ⟨by norm_num, by norm_num, by with_unfolding_all decide⟩

/-- C3 as amended: (a) every emitted change point is the record of a
consecutive window pair whose change rate (relative when `|prev| > 0.01`,
absolute otherwise) strictly exceeds the threshold, and conversely the pair
record at index `i+1` is emitted exactly when its rate exceeds the
threshold, carrying `change_type = increase` iff `curr > prev` (this is
part of the record); (b) with window means `1` and `1 + t + ε` (`t, ε > 0`)
a change point is emitted; (c) with window means `1` and `1 + t - ε` none
is emitted **provided `0 < ε ≤ 2t`** (the bound the counterexample forces:
for `ε > 2t` the rate `|t - ε|` again exceeds `t`). -/
theorem C3_amended_simple_threshold_boundary :
    (∀ (cfg : SimpleChangeDetector.Config) (data : List SentimentItem)
        (cp : SimpleChangeDetector.CP),
      cp ∈ SimpleChangeDetector.detect_changes cfg data → ∃ i,
        i + 1 < (SimpleChangeDetector.aggregate_by_window cfg.window_minutes
          data).length ∧
        cp = SimpleChangeDetector.recordAt
          (SimpleChangeDetector.aggregate_by_window cfg.window_minutes data)
          i ∧
        SimpleChangeDetector.changeRate
            ((SimpleChangeDetector.aggregate_by_window cfg.window_minutes
              data).getD i default).mean_sentiment
            ((SimpleChangeDetector.aggregate_by_window cfg.window_minutes
              data).getD (i + 1) default).mean_sentiment > cfg.threshold) ∧
    (∀ (cfg : SimpleChangeDetector.Config) (data : List SentimentItem)
        (i : ℕ),
      i + 1 < (SimpleChangeDetector.aggregate_by_window cfg.window_minutes
        data).length →
      (SimpleChangeDetector.recordAt
          (SimpleChangeDetector.aggregate_by_window cfg.window_minutes data)
          i ∈ SimpleChangeDetector.detect_changes cfg data ↔
        SimpleChangeDetector.changeRate
            ((SimpleChangeDetector.aggregate_by_window cfg.window_minutes
              data).getD i default).mean_sentiment
            ((SimpleChangeDetector.aggregate_by_window cfg.window_minutes
              data).getD (i + 1) default).mean_sentiment > cfg.threshold)) ∧
    (∀ t ε : ℚ, 0 < t → 0 < ε →
      SimpleChangeDetector.detect_changes
          { window_minutes := 10, threshold := t }
          [{ analyzed_at := 0, positive_score := 1, negative_score := 0,
             neutral_score := 0 },
           { analyzed_at := 10, positive_score := 1 + t + ε,
             negative_score := 0, neutral_score := 0 }] =
        [{ change_point := 10, previous_score := 1,
           current_score := 1 + t + ε, change_rate := t + ε,
           change_type := ChangeType.increase, window_start := 0,
           window_end := 10 }]) ∧
    (∀ t ε : ℚ, 0 < t → 0 < ε → ε ≤ 2 * t →
      SimpleChangeDetector.detect_changes
          { window_minutes := 10, threshold := t }
          [{ analyzed_at := 0, positive_score := 1, negative_score := 0,
             neutral_score := 0 },
           { analyzed_at := 10, positive_score := 1 + t - ε,
             negative_score := 0, neutral_score := 0 }] = []) := by
  refine ⟨SimpleChangeDetector.detect_complete,
    fun cfg data i h => SimpleChangeDetector.record_mem_iff cfg data i h,
    ?_, ?_⟩
  · intro t ε ht hε
    have hg := SimpleChangeDetector.aggregate_pair (1 + t + ε)
    have hrate : SimpleChangeDetector.changeRate 1 (1 + t + ε) = t + ε := by
      unfold SimpleChangeDetector.changeRate
      rw [if_pos (by norm_num : |(1:ℚ)| > 1 / 100), abs_one, div_one,
        show (1 + t + ε - 1 : ℚ) = t + ε from by ring,
        abs_of_pos (by linarith)]
    have hstep : SimpleChangeDetector.stepCP t
        { time_window := 0, mean_sentiment := 1, count := 1 }
        { time_window := 10, mean_sentiment := 1 + t + ε, count := 1 } =
        some { change_point := 10, previous_score := 1,
               current_score := 1 + t + ε, change_rate := t + ε,
               change_type := ChangeType.increase, window_start := 0,
               window_end := 10 } := by
      simp only [SimpleChangeDetector.stepCP, hrate]
      rw [if_pos (by linarith : t + ε > t),
        if_pos (by linarith : (1:ℚ) + t + ε > 1)]
    rw [SimpleChangeDetector.detect_changes_eq_loop _ _
      (by show 2 ≤ (SimpleChangeDetector.aggregate_by_window 10 _).length
          rw [hg]; norm_num)]
    show SimpleChangeDetector.detectLoop t
      (SimpleChangeDetector.aggregate_by_window 10 _) = _
    rw [hg]
    unfold SimpleChangeDetector.detectLoop
    norm_num [List.range', List.filterMap_cons, List.getD_cons_succ,
      List.getD_cons_zero, hstep]
  · intro t ε ht hε hbound
    have hg := SimpleChangeDetector.aggregate_pair (1 + t - ε)
    have hrate : SimpleChangeDetector.changeRate 1 (1 + t - ε) = |t - ε| := by
      unfold SimpleChangeDetector.changeRate
      rw [if_pos (by norm_num : |(1:ℚ)| > 1 / 100), abs_one, div_one,
        show (1 + t - ε - 1 : ℚ) = t - ε from by ring]
    have hstep : SimpleChangeDetector.stepCP t
        { time_window := 0, mean_sentiment := 1, count := 1 }
        { time_window := 10, mean_sentiment := 1 + t - ε, count := 1 } =
        none := by
      simp only [SimpleChangeDetector.stepCP, hrate]
      rw [if_neg (not_lt.mpr (abs_le.mpr ⟨by linarith, by linarith⟩))]
    rw [SimpleChangeDetector.detect_changes_eq_loop _ _
      (by show 2 ≤ (SimpleChangeDetector.aggregate_by_window 10 _).length
          rw [hg]; norm_num)]
    show SimpleChangeDetector.detectLoop t
      (SimpleChangeDetector.aggregate_by_window 10 _) = _
    rw [hg]
    unfold SimpleChangeDetector.detectLoop
    norm_num [List.range', List.filterMap_cons, List.getD_cons_succ,
      List.getD_cons_zero, hstep]

/-- C3 witness: the boundary parts of
`C3_amended_simple_threshold_boundary` at threshold `3/10` and `ε = 1/10`. -/
theorem C3_witness :
    ((0:ℚ) < 3/10 ∧ (0:ℚ) < 1/10 ∧ (1:ℚ)/10 ≤ 2 * (3/10)) ∧
    SimpleChangeDetector.detect_changes
        { window_minutes := 10, threshold := 3/10 }
        [{ analyzed_at := 0, positive_score := 1, negative_score := 0,
           neutral_score := 0 },
         { analyzed_at := 10, positive_score := 1 + 3/10 + 1/10,
           negative_score := 0, neutral_score := 0 }] =
      [{ change_point := 10, previous_score := 1,
         current_score := 1 + 3/10 + 1/10, change_rate := 3/10 + 1/10,
         change_type := ChangeType.increase, window_start := 0,
         window_end := 10 }] ∧
    SimpleChangeDetector.detect_changes
        { window_minutes := 10, threshold := 3/10 }
        [{ analyzed_at := 0, positive_score := 1, negative_score := 0,
           neutral_score := 0 },
         { analyzed_at := 10, positive_score := 1 + 3/10 - 1/10,
           negative_score := 0, neutral_score := 0 }] = [] :=
  ⟨⟨by norm_num, by norm_num, by norm_num⟩,
   C3_amended_simple_threshold_boundary.2.2.1 (3/10) (1/10) (by norm_num)
     (by norm_num),
   C3_amended_simple_threshold_boundary.2.2.2 (3/10) (1/10) (by norm_num)
     (by norm_num) (by norm_num)⟩

/-- Every index kept by the greedy filter lies at least `m` past the `last`
accumulator it started from. -/
theorem BayesianChangeDetector.greedyFilterIdx_ge (m : ℕ) (c : List ℕ) :
    ∀ (last : ℤ) (x : ℕ),
      x ∈ BayesianChangeDetector.greedyFilterIdx m last c →
      last + m ≤ (x : ℤ) := by
  induction c with
  | nil =>
    intro last x hx
    simp [BayesianChangeDetector.greedyFilterIdx] at hx
  | cons i rest ih =>
    intro last x hx
    unfold BayesianChangeDetector.greedyFilterIdx at hx
    split at hx
    · rename_i hcond
      rcases List.mem_cons.mp hx with hxi | hx'
      · subst hxi; omega
      · have h2 := ih (i : ℤ) x hx'
        omega
    · exact ih last x hx

/-- The greedy filter's output is pairwise spaced by at least `m`. -/
theorem BayesianChangeDetector.greedyFilterIdx_pairwise (m : ℕ) (c : List ℕ) :
    ∀ last : ℤ,
      (BayesianChangeDetector.greedyFilterIdx m last c).Pairwise
        (fun a b => a + m ≤ b) := by
  induction c with
  | nil => intro last; simp [BayesianChangeDetector.greedyFilterIdx]
  | cons i rest ih =>
    intro last
    unfold BayesianChangeDetector.greedyFilterIdx
    split
    · refine List.pairwise_cons.mpr ⟨?_, ih (i : ℤ)⟩
      intro b hb
      have h2 := BayesianChangeDetector.greedyFilterIdx_ge m rest (i : ℤ) b hb
      omega
    · exact ih last

/-- The greedy filter selects a subsequence of the candidates. -/
theorem BayesianChangeDetector.greedyFilterIdx_sublist (m : ℕ) (c : List ℕ) :
    ∀ last : ℤ,
      (BayesianChangeDetector.greedyFilterIdx m last c).Sublist c := by
  induction c with
  | nil => intro last; simp [BayesianChangeDetector.greedyFilterIdx]
  | cons i rest ih =>
    intro last
    unfold BayesianChangeDetector.greedyFilterIdx
    split
    · exact List.Sublist.cons₂ i (ih (i : ℤ))
    · exact List.Sublist.cons i (ih last)

/-- Starting from `last = -m`, the greedy filter always keeps the earliest
candidate. -/
theorem BayesianChangeDetector.greedyFilterIdx_head (m : ℕ) (c : List ℕ) :
    (BayesianChangeDetector.greedyFilterIdx m (-(m : ℤ)) c).head? =
      c.head? := by
  cases c with
  | nil => rfl
  | cons i rest =>
    unfold BayesianChangeDetector.greedyFilterIdx
    rw [if_pos (by omega : (m : ℤ) ≤ (i : ℤ) - -(m : ℤ))]
    rfl

/-- Index-preserving emission transfers pairwise spacing through
`filterMap`. -/
theorem BayesianChangeDetector.filterMap_fst_pairwise (m : ℕ)
    (f : ℕ → Option (ℕ × BayesianChangeDetector.CP))
    (hf : ∀ a b, f a = some b → b.1 = a) (l : List ℕ)
    (hl : l.Pairwise (fun a b => a + m ≤ b)) :
    (l.filterMap f).Pairwise (fun p q => p.1 + m ≤ q.1) :=
  List.Pairwise.filterMap f
    (fun a a' h b hb b' hb' => by
      rw [Option.mem_def] at hb hb'
      rw [hf a b hb, hf a' b' hb']
      exact h) hl

/-- C6: for every input series, the change points emitted by the Bayesian
detector (paired with the series indices they were emitted at) are pairwise
at least `min_segment_length` samples apart; and the greedy candidate
filter realises the earliest-wins tie-break: it selects a subsequence of the
threshold-exceeding candidate indices that always keeps the first one. -/
theorem C6_bayesian_minimum_spacing :
    ∀ (cfg : BayesianChangeDetector.Config) (values : List ℝ)
      (ts : List ℤ) (c : List ℕ),
      (BayesianChangeDetector.bayesian_detect_idx cfg values ts).Pairwise
        (fun p q => p.1 + cfg.min_segment_length ≤ q.1) ∧
      (BayesianChangeDetector.greedyFilterIdx cfg.min_segment_length
        (-(cfg.min_segment_length : ℤ)) c).Sublist c ∧
      (BayesianChangeDetector.greedyFilterIdx cfg.min_segment_length
        (-(cfg.min_segment_length : ℤ)) c).head? = c.head? := by
  intro cfg values ts c
  refine ⟨?_, BayesianChangeDetector.greedyFilterIdx_sublist _ _ _,
    BayesianChangeDetector.greedyFilterIdx_head _ _⟩
  unfold BayesianChangeDetector.bayesian_detect_idx
  dsimp only
  split
  · simp
  · refine BayesianChangeDetector.filterMap_fst_pairwise
      cfg.min_segment_length _ ?_ _
      (BayesianChangeDetector.greedyFilterIdx_pairwise _ _ _)
    intro a b h
    split at h
    · exact absurd h (by simp)
    · exact (congrArg Prod.fst (Option.some.inj h)).symm ▸ rfl

/-- Swapping increase and decrease. -/
def ChangeType.flip : ChangeType → ChangeType
  | ChangeType.increase => ChangeType.decrease
  | ChangeType.decrease => ChangeType.increase

/-- The effect of negating the input series on one emitted z-score change
point: scores negate, the direction flips, timestamp, rate and z-score are
untouched. -/
def ZScoreDetector.flipCP (cp : ZScoreDetector.CP) : ZScoreDetector.CP :=
  { change_point := cp.change_point
    previous_score := -cp.previous_score
    current_score := -cp.current_score
    change_rate := cp.change_rate
    change_type := cp.change_type.flip
    z_score := cp.z_score }

/-- Negating a list negates its mean. -/
theorem npMean_map_neg (l : List ℝ) :
    npMean (l.map (fun x => -x)) = -npMean l := by
  have hs : (l.map (fun x => -x)).sum = -l.sum := by
    induction l with
    | nil => simp
    | cons a t ih => simp [ih]; ring
  unfold npMean
  rw [List.length_map, hs, neg_div]

/-- Negating a list preserves its population variance. -/
theorem npVar_map_neg (l : List ℝ) :
    npVar (l.map (fun x => -x)) = npVar l := by
  unfold npVar
  rw [npMean_map_neg, List.map_map]
  congr 1
  refine List.map_congr_left fun x _ => ?_
  simp only [Function.comp_apply]
  ring

/-- Negating a list preserves its population standard deviation. -/
theorem npStd_map_neg (l : List ℝ) :
    npStd (l.map (fun x => -x)) = npStd l := by
  unfold npStd
  rw [npVar_map_neg]

/-- The reference window of the negated series is the negated reference
window. -/
theorem ZScoreDetector.prevWindow_map_neg (w : ℕ) (values : List ℝ) (i : ℕ) :
    ZScoreDetector.prevWindow w (values.map (fun x => -x)) i =
      (ZScoreDetector.prevWindow w values i).map (fun x => -x) := by
  unfold ZScoreDetector.prevWindow
  rw [← List.map_take, ← List.map_drop]

/-- The current window of the negated series is the negated current
window. -/
theorem ZScoreDetector.currWindow_map_neg (w : ℕ) (values : List ℝ) (i : ℕ) :
    ZScoreDetector.currWindow w (values.map (fun x => -x)) i =
      (ZScoreDetector.currWindow w values i).map (fun x => -x) := by
  unfold ZScoreDetector.currWindow
  rw [← List.map_drop, ← List.map_take]

/-- One loop iteration of `_zscore_detect` on the negated series: for a
non-negative z-threshold, the step emits exactly when the original step
emits, with scores negated and the direction flipped. -/
theorem ZScoreDetector.zStep_map_neg (cfg : ZScoreDetector.Config)
    (hzt : 0 ≤ cfg.z_threshold) (values : List ℝ) (ts : List ℤ) (i : ℕ) :
    ZScoreDetector.zStep cfg (values.map (fun x => -x)) ts i =
      (ZScoreDetector.zStep cfg values ts i).map ZScoreDetector.flipCP := by
  unfold ZScoreDetector.zStep
  dsimp only
  rw [ZScoreDetector.prevWindow_map_neg, ZScoreDetector.currWindow_map_neg,
    npMean_map_neg, npStd_map_neg, npMean_map_neg]
  by_cases hps : npStd (ZScoreDetector.prevWindow cfg.window_size values i) <
      eps8R
  · rw [if_pos hps, if_pos hps]
    rfl
  · rw [if_neg hps, if_neg hps]
    have habs : |-npMean (ZScoreDetector.currWindow cfg.window_size values i) -
        -npMean (ZScoreDetector.prevWindow cfg.window_size values i)| =
        |npMean (ZScoreDetector.currWindow cfg.window_size values i) -
          npMean (ZScoreDetector.prevWindow cfg.window_size values i)| := by
      rw [show -npMean (ZScoreDetector.currWindow cfg.window_size values i) -
          -npMean (ZScoreDetector.prevWindow cfg.window_size values i) =
          -(npMean (ZScoreDetector.currWindow cfg.window_size values i) -
            npMean (ZScoreDetector.prevWindow cfg.window_size values i))
        from by ring, abs_neg]
    rw [habs,
      abs_neg (npMean (ZScoreDetector.prevWindow cfg.window_size values i))]
    by_cases hz : |npMean (ZScoreDetector.currWindow cfg.window_size values i) -
        npMean (ZScoreDetector.prevWindow cfg.window_size values i)| /
        npStd (ZScoreDetector.prevWindow cfg.window_size values i) >
        cfg.z_threshold
    · rw [if_pos hz, if_pos hz, Option.map_some']
      have hstdpos : 0 < npStd (ZScoreDetector.prevWindow cfg.window_size
          values i) := by
        have : (0:ℝ) < eps8R := by norm_num [eps8R]
        linarith [not_lt.mp hps]
      have hne : npMean (ZScoreDetector.currWindow cfg.window_size values i) ≠
          npMean (ZScoreDetector.prevWindow cfg.window_size values i) := by
        intro hEq
        rw [hEq, sub_self, abs_zero, zero_div] at hz
        exact absurd hz (not_lt.mpr hzt)
      rcases lt_or_gt_of_ne hne with hlt | hgt
      · rw [if_neg (not_lt.mpr (le_of_lt hlt)),
          if_pos (neg_lt_neg_iff.mpr hlt)]
        rfl
      · rw [if_pos hgt, if_neg (by simpa using not_lt.mpr (le_of_lt hgt))]
        rfl
    · rw [if_neg hz, if_neg hz]
      rfl

/-- `_zscore_detect` on the negated series equals the flipped original
output, for non-negative z-thresholds. -/
theorem ZScoreDetector.zscore_detect_map_neg (cfg : ZScoreDetector.Config)
    (hzt : 0 ≤ cfg.z_threshold) (values : List ℝ) (ts : List ℤ) :
    ZScoreDetector.zscore_detect cfg (values.map (fun x => -x)) ts =
      (ZScoreDetector.zscore_detect cfg values ts).map
        ZScoreDetector.flipCP := by
  unfold ZScoreDetector.zscore_detect
  rw [List.length_map]
  by_cases hn : values.length < cfg.window_size + 1
  · rw [if_pos hn, if_pos hn]
    rfl
  · rw [if_neg hn, if_neg hn, List.map_filterMap]
    exact List.filterMap_congr fun i _ =>
      ZScoreDetector.zStep_map_neg cfg hzt values ts i

/-- C7 as amended: for every Z-score configuration with a NON-NEGATIVE
z-threshold (the counterexample forces this restriction; the default 2.5
satisfies it), negating the whole series yields the flipped output:
same length, identical timestamps, identical z-score magnitudes and rates,
every `change_type` flipped, scores negated. -/
theorem C7_amended_zscore_negation_symmetry :
    ∀ (cfg : ZScoreDetector.Config) (values : List ℝ) (ts : List ℤ),
      0 ≤ cfg.z_threshold →
      ZScoreDetector.zscore_detect cfg (values.map (fun x => -x)) ts =
        (ZScoreDetector.zscore_detect cfg values ts).map
          ZScoreDetector.flipCP ∧
      (ZScoreDetector.zscore_detect cfg (values.map (fun x => -x))
          ts).length =
        (ZScoreDetector.zscore_detect cfg values ts).length ∧
      (ZScoreDetector.zscore_detect cfg (values.map (fun x => -x)) ts).map
          (·.change_point) =
        (ZScoreDetector.zscore_detect cfg values ts).map (·.change_point) ∧
      (ZScoreDetector.zscore_detect cfg (values.map (fun x => -x)) ts).map
          (·.z_score) =
        (ZScoreDetector.zscore_detect cfg values ts).map (·.z_score) ∧
      (ZScoreDetector.zscore_detect cfg (values.map (fun x => -x)) ts).map
          (·.change_type) =
        (ZScoreDetector.zscore_detect cfg values ts).map
          (fun cp => cp.change_type.flip) := by
  intro cfg values ts hzt
  have hmaster := ZScoreDetector.zscore_detect_map_neg cfg hzt values ts
  refine ⟨hmaster, ?_, ?_, ?_, ?_⟩
  · rw [hmaster, List.length_map]
  · rw [hmaster, List.map_map]
    rfl
  · rw [hmaster, List.map_map]
    rfl
  · rw [hmaster, List.map_map]
    rfl

/-- C7 witness: `C7_amended_zscore_negation_symmetry` at the default
threshold `5/2` on a concrete series. -/
theorem C7_witness :
    (0 : ℝ) ≤ 5/2 ∧
    ZScoreDetector.zscore_detect { z_threshold := 5/2, window_size := 2 }
        (([0, 1, 0, 1, 0] : List ℝ).map (fun x => -x)) [0, 1, 2, 3, 4] =
      (ZScoreDetector.zscore_detect { z_threshold := 5/2, window_size := 2 }
        [0, 1, 0, 1, 0] [0, 1, 2, 3, 4]).map ZScoreDetector.flipCP :=
  ⟨by norm_num,
   (C7_amended_zscore_negation_symmetry
     { z_threshold := 5/2, window_size := 2 } [0, 1, 0, 1, 0] [0, 1, 2, 3, 4]
     (by norm_num)).1⟩

/-- Mean of the two-element window `[0, 1]`. -/
theorem npMean_01 : npMean [(0 : ℝ), 1] = 1/2 := by
  norm_num [npMean]

/-- Variance of the two-element window `[0, 1]`. -/
theorem npVar_01 : npVar [(0 : ℝ), 1] = 1/4 := by
  unfold npVar
  rw [npMean_01]
  norm_num [npMean]

/-- Standard deviation of the two-element window `[0, 1]`. -/
theorem npStd_01 : npStd [(0 : ℝ), 1] = 1/2 := by
  unfold npStd
  rw [npVar_01, show (1/4 : ℝ) = (1/2)^2 from by norm_num,
    Real.sqrt_sq (by norm_num : (0:ℝ) ≤ 1/2)]

/-- Mean of the two-element window `[0, -1]`. -/
theorem npMean_0n1 : npMean [(0 : ℝ), -1] = -(1/2) := by
  norm_num [npMean]

/-- Variance of the two-element window `[0, -1]`. -/
theorem npVar_0n1 : npVar [(0 : ℝ), -1] = 1/4 := by
  unfold npVar
  rw [npMean_0n1]
  norm_num [npMean]

/-- Standard deviation of the two-element window `[0, -1]`. -/
theorem npStd_0n1 : npStd [(0 : ℝ), -1] = 1/2 := by
  unfold npStd
  rw [npVar_0n1, show (1/4 : ℝ) = (1/2)^2 from by norm_num,
    Real.sqrt_sq (by norm_num : (0:ℝ) ≤ 1/2)]

/-- Full run of the z-score detector, threshold `-1`, on `[0,1,0,1,0]`. -/
theorem zscore_eval_pos :
    ZScoreDetector.zscore_detect { z_threshold := -1, window_size := 2 }
        [0, 1, 0, 1, 0] [0, 1, 2, 3, 4] =
      [{ change_point := 2, previous_score := 1/2, current_score := 1/2,
         change_rate := 0, change_type := ChangeType.decrease,
         z_score := 0 }] := by
  have hPW : ZScoreDetector.prevWindow 2 [0, 1, 0, 1, 0] 2 = [(0:ℝ), 1] := rfl
  have hCW : ZScoreDetector.currWindow 2 [0, 1, 0, 1, 0] 2 = [(0:ℝ), 1] := rfl
  have hstep : ZScoreDetector.zStep { z_threshold := -1, window_size := 2 }
      [0, 1, 0, 1, 0] [0, 1, 2, 3, 4] 2 =
      some { change_point := 2, previous_score := 1/2, current_score := 1/2,
             change_rate := 0, change_type := ChangeType.decrease,
             z_score := 0 } := by
    unfold ZScoreDetector.zStep
    dsimp only
    rw [hPW, hCW, npMean_01, npStd_01]
    rw [if_neg (show ¬((1/2 : ℝ) < eps8R) from by norm_num [eps8R])]
    simp only [sub_self, abs_zero, zero_div]
    rw [if_pos (show (0:ℝ) > -1 from by norm_num),
      if_neg (lt_irrefl (1/2 : ℝ))]
    rfl
  unfold ZScoreDetector.zscore_detect
  dsimp only
  rw [if_neg (show ¬(([0, 1, 0, 1, 0] : List ℝ).length < 2 + 1) from by
    norm_num)]
  rw [show ([0, 1, 0, 1, 0] : List ℝ).length - 2 * 2 = 1 from rfl,
    show List.range' 2 1 = [2] from rfl,
    List.filterMap_cons, List.filterMap_nil, hstep]

/-- Full run of the z-score detector, threshold `-1`, on the negated
series `[0,-1,0,-1,0]`. -/
theorem zscore_eval_neg :
    ZScoreDetector.zscore_detect { z_threshold := -1, window_size := 2 }
        [0, -1, 0, -1, 0] [0, 1, 2, 3, 4] =
      [{ change_point := 2, previous_score := -(1/2),
         current_score := -(1/2), change_rate := 0,
         change_type := ChangeType.decrease, z_score := 0 }] := by
  have hPW : ZScoreDetector.prevWindow 2 [0, -1, 0, -1, 0] 2 =
      [(0:ℝ), -1] := rfl
  have hCW : ZScoreDetector.currWindow 2 [0, -1, 0, -1, 0] 2 =
      [(0:ℝ), -1] := rfl
  have hstep : ZScoreDetector.zStep { z_threshold := -1, window_size := 2 }
      [0, -1, 0, -1, 0] [0, 1, 2, 3, 4] 2 =
      some { change_point := 2, previous_score := -(1/2),
             current_score := -(1/2), change_rate := 0,
             change_type := ChangeType.decrease, z_score := 0 } := by
    unfold ZScoreDetector.zStep
    dsimp only
    rw [hPW, hCW, npMean_0n1, npStd_0n1]
    rw [if_neg (show ¬((1/2 : ℝ) < eps8R) from by norm_num [eps8R])]
    simp only [sub_self, abs_zero, zero_div]
    rw [if_pos (show (0:ℝ) > -1 from by norm_num),
      if_neg (lt_irrefl (-(1/2) : ℝ))]
    rfl
  unfold ZScoreDetector.zscore_detect
  dsimp only
  rw [if_neg (show ¬(([0, -1, 0, -1, 0] : List ℝ).length < 2 + 1) from by
    norm_num)]
  rw [show ([0, -1, 0, -1, 0] : List ℝ).length - 2 * 2 = 1 from rfl,
    show List.range' 2 1 = [2] from rfl,
    List.filterMap_cons, List.filterMap_nil, hstep]

/-- C7 counterexample: with the (unvalidated) configuration
`z_threshold = -1`, the series `[0,1,0,1,0]` and its negation both emit
exactly one change point of the SAME type (`decrease`, since the window
means are equal and the tie goes to `decrease`), so "every change_type is
flipped" fails for this configuration. -/
theorem C7_counterexample_negative_threshold :
    ((ZScoreDetector.zscore_detect { z_threshold := -1, window_size := 2 }
        [0, 1, 0, 1, 0] [0, 1, 2, 3, 4]).map (·.change_type) =
      [ChangeType.decrease]) ∧
    (([0, 1, 0, 1, 0] : List ℝ).map (fun x => -x) = [0, -1, 0, -1, 0]) ∧
    ((ZScoreDetector.zscore_detect { z_threshold := -1, window_size := 2 }
        (([0, 1, 0, 1, 0] : List ℝ).map (fun x => -x)) [0, 1, 2, 3, 4]).map
        (·.change_type) = [ChangeType.decrease]) := by
  have hmap : ([0, 1, 0, 1, 0] : List ℝ).map (fun x => -x) =
      [0, -1, 0, -1, 0] := by norm_num
  refine ⟨?_, hmap, ?_⟩
  · rw [zscore_eval_pos]
    rfl
  · rw [hmap, zscore_eval_neg]
    rfl

/-- A direction literal built from a comparison equals `increase` exactly
when the comparison holds. -/
theorem ite_increase_iff {b : Prop} [inst : Decidable b] :
    (if b then ChangeType.increase else ChangeType.decrease) =
      ChangeType.increase ↔ b := by
  by_cases h : b
  · simp [h]
  · simp [h]

/-- Both branches of the simple detector's change rate are non-negative. -/
theorem SimpleChangeDetector.changeRate_nonneg (p c : ℚ) :
    0 ≤ SimpleChangeDetector.changeRate p c := by
  unfold SimpleChangeDetector.changeRate
  split
  · exact div_nonneg (abs_nonneg _) (abs_nonneg _)
  · exact abs_nonneg _

/-- Invariants of every change point of the simple detector. -/
theorem SimpleChangeDetector.simple_cp_spec (cfg : SimpleChangeDetector.Config)
    (data : List SentimentItem) :
    ∀ cp ∈ SimpleChangeDetector.detect_changes cfg data,
      0 ≤ cp.change_rate ∧
      (cp.change_type = ChangeType.increase ↔
        cp.previous_score < cp.current_score) := by
  intro cp hcp
  obtain ⟨i, hlen, hcpEq, _⟩ :=
    SimpleChangeDetector.detect_complete cfg data cp hcp
  subst hcpEq
  exact ⟨SimpleChangeDetector.changeRate_nonneg _ _, ite_increase_iff⟩

/-- Invariants of every change point of the z-score detector. -/
theorem ZScoreDetector.zscore_cp_spec (cfg : ZScoreDetector.Config)
    (values : List ℝ) (ts : List ℤ) :
    ∀ cp ∈ ZScoreDetector.zscore_detect cfg values ts,
      0 ≤ cp.change_rate ∧
      (cp.change_type = ChangeType.increase ↔
        cp.previous_score < cp.current_score) := by
  intro cp hcp
  unfold ZScoreDetector.zscore_detect at hcp
  split at hcp
  · exact absurd hcp (List.not_mem_nil cp)
  · rw [List.mem_filterMap] at hcp
    obtain ⟨i, _, hstep⟩ := hcp
    unfold ZScoreDetector.zStep at hstep
    dsimp only at hstep
    split at hstep
    · exact absurd hstep (by simp)
    · split at hstep
      · have hEq := (Option.some.inj hstep).symm
        subst hEq
        refine ⟨div_nonneg (abs_nonneg _)
          (add_nonneg (abs_nonneg _) (by norm_num [eps8R])), ?_⟩
        exact ite_increase_iff
      · exact absurd hstep (by simp)

/-- Invariants of every change point of the Bayesian detector. -/
theorem BayesianChangeDetector.bayes_cp_spec (cfg : BayesianChangeDetector.Config)
    (values : List ℝ) (ts : List ℤ) :
    ∀ cp ∈ BayesianChangeDetector.bayesian_detect cfg values ts,
      0 ≤ cp.change_rate ∧
      (cp.change_type = ChangeType.increase ↔
        cp.previous_score < cp.current_score) := by
  intro cp hcp
  unfold BayesianChangeDetector.bayesian_detect
    BayesianChangeDetector.bayesian_detect_idx at hcp
  dsimp only at hcp
  split at hcp
  · simp at hcp
  · rw [List.mem_map] at hcp
    obtain ⟨p, hp, hpcp⟩ := hcp
    rw [List.mem_filterMap] at hp
    obtain ⟨idx, _, hstep⟩ := hp
    split at hstep
    · exact absurd hstep (by simp)
    · have hEq := Option.some.inj hstep
      subst hEq
      dsimp only at hpcp
      subst hpcp
      refine ⟨div_nonneg (abs_nonneg _)
        (add_nonneg (abs_nonneg _) (by norm_num [eps8R])), ?_⟩
      exact ite_increase_iff

/-- Non-negativity of the CUSUM change rate (the direction of a CUSUM
point is NOT tied to the reported scores — see the counterexample). -/
theorem CUSUMDetector.cp_rate_nonneg (cfg : CUSUMDetector.Config)
    (values : List ℝ) (ts : List ℤ) :
    ∀ cp ∈ CUSUMDetector.cusum_detect cfg values ts,
      0 ≤ cp.change_rate := by
  intro cp hcp
  unfold CUSUMDetector.cusum_detect at hcp
  dsimp only at hcp
  split at hcp
  · simp at hcp
  · split at hcp
    · simp at hcp
    · rw [List.mem_filterMap] at hcp
      obtain ⟨i, _, hstep⟩ := hcp
      split at hstep
      · have hEq := (Option.some.inj hstep).symm
        subst hEq
        exact div_nonneg (abs_nonneg _)
          (add_nonneg (abs_nonneg _) (by norm_num [eps8R]))
      · exact absurd hstep (by simp)

/-- Mean of the C4 counterexample series. -/
theorem npMean_c4 : npMean [(1:ℝ), 1, 1, -1, -1, -1] = 0 := by
  norm_num [npMean]

/-- Variance of the C4 counterexample series. -/
theorem npVar_c4 : npVar [(1:ℝ), 1, 1, -1, -1, -1] = 1 := by
  unfold npVar
  rw [npMean_c4]
  norm_num [npMean]

/-- Standard deviation of the C4 counterexample series. -/
theorem npStd_c4 : npStd [(1:ℝ), 1, 1, -1, -1, -1] = 1 := by
  unfold npStd
  rw [npVar_c4, Real.sqrt_one]

/-- `S_plus[1]` on the C4 series with drift `1/10`. -/
theorem sPlus_c4_1 :
    CUSUMDetector.sPlus (1/10) [(1:ℝ), 1, 1, -1, -1, -1] 1 = 9/10 := by
  have e1 : CUSUMDetector.sPlus (1/10) [(1:ℝ), 1, 1, -1, -1, -1] 1 =
      max 0 (CUSUMDetector.sPlus (1/10) [(1:ℝ), 1, 1, -1, -1, -1] 0 + 1 -
        1/10) := rfl
  rw [e1, show CUSUMDetector.sPlus (1/10) [(1:ℝ), 1, 1, -1, -1, -1] 0 = 0
    from rfl]
  rw [max_eq_right (by norm_num : (0:ℝ) ≤ 0 + 1 - 1/10)]
  norm_num

/-- `S_plus[2]` on the C4 series with drift `1/10`. -/
theorem sPlus_c4_2 :
    CUSUMDetector.sPlus (1/10) [(1:ℝ), 1, 1, -1, -1, -1] 2 = 9/5 := by
  have e2 : CUSUMDetector.sPlus (1/10) [(1:ℝ), 1, 1, -1, -1, -1] 2 =
      max 0 (CUSUMDetector.sPlus (1/10) [(1:ℝ), 1, 1, -1, -1, -1] 1 + 1 -
        1/10) := rfl
  rw [e2, sPlus_c4_1]
  rw [max_eq_right (by norm_num : (0:ℝ) ≤ 9/10 + 1 - 1/10)]
  norm_num

/-- `S_minus[1]` on the C4 series with drift `1/10`. -/
theorem sMinus_c4_1 :
    CUSUMDetector.sMinus (1/10) [(1:ℝ), 1, 1, -1, -1, -1] 1 = 0 := by
  have e1 : CUSUMDetector.sMinus (1/10) [(1:ℝ), 1, 1, -1, -1, -1] 1 =
      max 0 (CUSUMDetector.sMinus (1/10) [(1:ℝ), 1, 1, -1, -1, -1] 0 - 1 -
        1/10) := rfl
  rw [e1, show CUSUMDetector.sMinus (1/10) [(1:ℝ), 1, 1, -1, -1, -1] 0 = 0
    from rfl]
  rw [max_eq_left (by norm_num : (0:ℝ) - 1 - 1/10 ≤ 0)]

/-- `S_minus[2]` on the C4 series with drift `1/10`. -/
theorem sMinus_c4_2 :
    CUSUMDetector.sMinus (1/10) [(1:ℝ), 1, 1, -1, -1, -1] 2 = 0 := by
  have e2 : CUSUMDetector.sMinus (1/10) [(1:ℝ), 1, 1, -1, -1, -1] 2 =
      max 0 (CUSUMDetector.sMinus (1/10) [(1:ℝ), 1, 1, -1, -1, -1] 1 - 1 -
        1/10) := rfl
  rw [e2, sMinus_c4_1]
  rw [max_eq_left (by norm_num : (0:ℝ) - 1 - 1/10 ≤ 0)]

/-- The C4 run of `_cusum_detect` starts with the point emitted at index 2. -/
theorem cusum_eval_c4 :
    ∃ rest, CUSUMDetector.cusum_detect { threshold := 3/2, drift := 1/10 }
        [(1:ℝ), 1, 1, -1, -1, -1] [0, 1, 2, 3, 4, 5] =
      CUSUMDetector.mkCP { threshold := 3/2, drift := 1/10 }
        [(1:ℝ), 1, 1, -1, -1, -1] [0, 1, 2, 3, 4, 5]
        [(1:ℝ), 1, 1, -1, -1, -1] 2 :: rest := by
  unfold CUSUMDetector.cusum_detect
  dsimp only
  rw [if_neg (show ¬(([(1:ℝ), 1, 1, -1, -1, -1]).length < 3) from by
    norm_num)]
  rw [npMean_c4, npStd_c4]
  rw [if_neg (show ¬((1:ℝ) < eps8R) from by norm_num [eps8R])]
  rw [show ([(1:ℝ), 1, 1, -1, -1, -1]).map (fun x => (x - 0) / 1) =
    [(1:ℝ), 1, 1, -1, -1, -1] from by simp]
  rw [show List.range' 1 (([(1:ℝ), 1, 1, -1, -1, -1]).length - 1) =
    [1, 2, 3, 4, 5] from rfl]
  simp only [List.filterMap_cons, sPlus_c4_1, sPlus_c4_2, sMinus_c4_1,
    sMinus_c4_2]
  norm_num

/-- C4 counterexample: the CUSUM detector derives `change_type` from which
cumulative statistic exceeded the threshold, not from comparing the
reported scores.  On `[1,1,1,-1,-1,-1]` (threshold `3/2`, drift `1/10`)
the first emitted point (index 2) has `change_type = increase` because
`S_plus[2] = 9/5 > 3/2`, yet its reported `current_score` (mean of
`values[2:5] = [1,-1,-1]`, i.e. `-1/3`) is LESS than its
`previous_score` (mean of `values[0:2] = [1,1]`, i.e. `1`) — so
"`change_type = increase` iff `current_score > previous_score`" is false
for the CUSUM detector. -/
theorem C4_counterexample_cusum_direction :
    CUSUMDetector.cusum_detect { threshold := 3/2, drift := 1/10 }
        [(1:ℝ), 1, 1, -1, -1, -1] [0, 1, 2, 3, 4, 5] ≠ [] ∧
    (CUSUMDetector.cusum_detect { threshold := 3/2, drift := 1/10 }
        [(1:ℝ), 1, 1, -1, -1, -1] [0, 1, 2, 3, 4, 5]).headI.change_type =
      ChangeType.increase ∧
    (CUSUMDetector.cusum_detect { threshold := 3/2, drift := 1/10 }
        [(1:ℝ), 1, 1, -1, -1, -1] [0, 1, 2, 3, 4, 5]).headI.current_score <
      (CUSUMDetector.cusum_detect { threshold := 3/2, drift := 1/10 }
        [(1:ℝ), 1, 1, -1, -1, -1] [0, 1, 2, 3, 4, 5]).headI.previous_score := by
  obtain ⟨rest, hr⟩ := cusum_eval_c4
  have htype : (CUSUMDetector.mkCP { threshold := 3/2, drift := 1/10 }
      [(1:ℝ), 1, 1, -1, -1, -1] [0, 1, 2, 3, 4, 5]
      [(1:ℝ), 1, 1, -1, -1, -1] 2).change_type = ChangeType.increase := by
    show (if CUSUMDetector.sPlus (1/10) [(1:ℝ), 1, 1, -1, -1, -1] 2 > 3/2
      then ChangeType.increase else ChangeType.decrease) = ChangeType.increase
    rw [sPlus_c4_2]
    norm_num
  have hcur : (CUSUMDetector.mkCP { threshold := 3/2, drift := 1/10 }
      [(1:ℝ), 1, 1, -1, -1, -1] [0, 1, 2, 3, 4, 5]
      [(1:ℝ), 1, 1, -1, -1, -1] 2).current_score = -(1/3) := by
    show npMean (CUSUMDetector.currSlice [(1:ℝ), 1, 1, -1, -1, -1] 2) = -(1/3)
    rw [show CUSUMDetector.currSlice [(1:ℝ), 1, 1, -1, -1, -1] 2 =
      [(1:ℝ), -1, -1] from rfl]
    norm_num [npMean]
  have hprev : (CUSUMDetector.mkCP { threshold := 3/2, drift := 1/10 }
      [(1:ℝ), 1, 1, -1, -1, -1] [0, 1, 2, 3, 4, 5]
      [(1:ℝ), 1, 1, -1, -1, -1] 2).previous_score = 1 := by
    show npMean (CUSUMDetector.prevSlice [(1:ℝ), 1, 1, -1, -1, -1] 2) = 1
    rw [show CUSUMDetector.prevSlice [(1:ℝ), 1, 1, -1, -1, -1] 2 =
      [(1:ℝ), 1] from rfl]
    norm_num [npMean]
  rw [hr]
  refine ⟨by simp, ?_, ?_⟩
  · rw [List.headI_cons]
    exact htype
  · rw [List.headI_cons, hcur, hprev]
    norm_num

/-- C4 as amended: for the Simple, Z-score and Bayesian detectors every
emitted change point has `change_rate >= 0` and
`change_type = increase` iff `current_score > previous_score`; for the
CUSUM detector only `change_rate >= 0` holds — its direction comes from
the triggering cumulative statistic and can contradict the emitted score
pair (see the counterexample). -/
theorem C4_amended_change_point_invariants :
    (∀ (cfg : SimpleChangeDetector.Config) (data : List SentimentItem),
      ∀ cp ∈ SimpleChangeDetector.detect_changes cfg data,
        0 ≤ cp.change_rate ∧
        (cp.change_type = ChangeType.increase ↔
          cp.previous_score < cp.current_score)) ∧
    (∀ (cfg : ZScoreDetector.Config) (values : List ℝ) (ts : List ℤ),
      ∀ cp ∈ ZScoreDetector.zscore_detect cfg values ts,
        0 ≤ cp.change_rate ∧
        (cp.change_type = ChangeType.increase ↔
          cp.previous_score < cp.current_score)) ∧
    (∀ (cfg : BayesianChangeDetector.Config) (values : List ℝ) (ts : List ℤ),
      ∀ cp ∈ BayesianChangeDetector.bayesian_detect cfg values ts,
        0 ≤ cp.change_rate ∧
        (cp.change_type = ChangeType.increase ↔
          cp.previous_score < cp.current_score)) ∧
    (∀ (cfg : CUSUMDetector.Config) (values : List ℝ) (ts : List ℤ),
      ∀ cp ∈ CUSUMDetector.cusum_detect cfg values ts,
        0 ≤ cp.change_rate) :=
  ⟨SimpleChangeDetector.simple_cp_spec, ZScoreDetector.zscore_cp_spec,
   BayesianChangeDetector.bayes_cp_spec, CUSUMDetector.cp_rate_nonneg⟩

/-- C4 witness: `C4_amended_change_point_invariants` at a concrete emitted
change point of the simple detector. -/
theorem C4_witness :
    ({ change_point := 10, previous_score := 1, current_score := 2,
       change_rate := 1, change_type := ChangeType.increase,
       window_start := 0, window_end := 10 } : SimpleChangeDetector.CP) ∈
      SimpleChangeDetector.detect_changes
        { window_minutes := 10, threshold := 3/10 }
        [{ analyzed_at := 0, positive_score := 1, negative_score := 0,
           neutral_score := 0 },
         { analyzed_at := 10, positive_score := 2, negative_score := 0,
           neutral_score := 0 }] ∧
    (0 : ℚ) ≤
      ({ change_point := 10, previous_score := 1, current_score := 2,
         change_rate := 1, change_type := ChangeType.increase,
         window_start := 0, window_end := 10 } :
          SimpleChangeDetector.CP).change_rate ∧
    (({ change_point := 10, previous_score := 1, current_score := 2,
        change_rate := 1, change_type := ChangeType.increase,
        window_start := 0, window_end := 10 } :
          SimpleChangeDetector.CP).change_type = ChangeType.increase ↔
      ({ change_point := 10, previous_score := 1, current_score := 2,
         change_rate := 1, change_type := ChangeType.increase,
         window_start := 0, window_end := 10 } :
          SimpleChangeDetector.CP).previous_score <
      ({ change_point := 10, previous_score := 1, current_score := 2,
         change_rate := 1, change_type := ChangeType.increase,
         window_start := 0, window_end := 10 } :
          SimpleChangeDetector.CP).current_score) := by
  have hmem : ({ change_point := 10, previous_score := 1,
                 current_score := 2, change_rate := 1,
                 change_type := ChangeType.increase,
                 window_start := 0, window_end := 10 } :
        SimpleChangeDetector.CP) ∈
      SimpleChangeDetector.detect_changes
        { window_minutes := 10, threshold := 3/10 }
        [{ analyzed_at := 0, positive_score := 1, negative_score := 0,
           neutral_score := 0 },
         { analyzed_at := 10, positive_score := 2, negative_score := 0,
           neutral_score := 0 }] := by with_unfolding_all decide
  have hspec := C4_amended_change_point_invariants.1
    { window_minutes := 10, threshold := 3/10 }
    [{ analyzed_at := 0, positive_score := 1, negative_score := 0,
       neutral_score := 0 },
     { analyzed_at := 10, positive_score := 2, negative_score := 0,
       neutral_score := 0 }] _ hmem
  exact ⟨hmem, hspec.1, hspec.2⟩

/-- The current-window reporting slice of `_cusum_detect` always lies
inside the series with its final element removed:
`values[i : min(n-1, i+5)]` equals five elements of `values.dropLast`
starting at `i`. -/
theorem CUSUMDetector.currSlice_eq_dropLast (values : List ℝ) (i : ℕ) :
    CUSUMDetector.currSlice values i =
      ((values.dropLast).drop i).take 5 := by
  unfold CUSUMDetector.currSlice
  rw [List.dropLast_eq_take, List.drop_take, List.take_take]
  congr 1
  omega

/-- At the last index of the series the current-window slice is empty. -/
theorem CUSUMDetector.currSlice_last_nil (values : List ℝ) :
    CUSUMDetector.currSlice values (values.length - 1) = [] := by
  rw [CUSUMDetector.currSlice_eq_dropLast]
  rw [List.drop_eq_nil_of_le (by rw [List.length_dropLast])]
  rfl

/-- Mean of the C10 series. -/
theorem npMean_c10 : npMean [(-1:ℝ), -1, 1, 1] = 0 := by
  norm_num [npMean]

/-- Variance of the C10 series. -/
theorem npVar_c10 : npVar [(-1:ℝ), -1, 1, 1] = 1 := by
  unfold npVar
  rw [npMean_c10]
  norm_num [npMean]

/-- Standard deviation of the C10 series. -/
theorem npStd_c10 : npStd [(-1:ℝ), -1, 1, 1] = 1 := by
  unfold npStd
  rw [npVar_c10, Real.sqrt_one]

/-- `S_plus[1]` on the C10 series with drift `1/2`. -/
theorem sPlus_c10_1 :
    CUSUMDetector.sPlus (1/2) [(-1:ℝ), -1, 1, 1] 1 = 0 := by
  have e1 : CUSUMDetector.sPlus (1/2) [(-1:ℝ), -1, 1, 1] 1 =
      max 0 (CUSUMDetector.sPlus (1/2) [(-1:ℝ), -1, 1, 1] 0 + -1 - 1/2) :=
    rfl
  rw [e1, show CUSUMDetector.sPlus (1/2) [(-1:ℝ), -1, 1, 1] 0 = 0 from rfl]
  rw [max_eq_left (by norm_num : (0:ℝ) + -1 - 1/2 ≤ 0)]

/-- `S_plus[2]` on the C10 series with drift `1/2`. -/
theorem sPlus_c10_2 :
    CUSUMDetector.sPlus (1/2) [(-1:ℝ), -1, 1, 1] 2 = 1/2 := by
  have e2 : CUSUMDetector.sPlus (1/2) [(-1:ℝ), -1, 1, 1] 2 =
      max 0 (CUSUMDetector.sPlus (1/2) [(-1:ℝ), -1, 1, 1] 1 + 1 - 1/2) :=
    rfl
  rw [e2, sPlus_c10_1]
  rw [max_eq_right (by norm_num : (0:ℝ) ≤ 0 + 1 - 1/2)]
  norm_num

/-- `S_plus[3]` on the C10 series with drift `1/2`. -/
theorem sPlus_c10_3 :
    CUSUMDetector.sPlus (1/2) [(-1:ℝ), -1, 1, 1] 3 = 1 := by
  have e3 : CUSUMDetector.sPlus (1/2) [(-1:ℝ), -1, 1, 1] 3 =
      max 0 (CUSUMDetector.sPlus (1/2) [(-1:ℝ), -1, 1, 1] 2 + 1 - 1/2) :=
    rfl
  rw [e3, sPlus_c10_2]
  rw [max_eq_right (by norm_num : (0:ℝ) ≤ 1/2 + 1 - 1/2)]
  norm_num

/-- `S_minus[1]` on the C10 series with drift `1/2`. -/
theorem sMinus_c10_1 :
    CUSUMDetector.sMinus (1/2) [(-1:ℝ), -1, 1, 1] 1 = 1/2 := by
  have e1 : CUSUMDetector.sMinus (1/2) [(-1:ℝ), -1, 1, 1] 1 =
      max 0 (CUSUMDetector.sMinus (1/2) [(-1:ℝ), -1, 1, 1] 0 - -1 - 1/2) :=
    rfl
  rw [e1, show CUSUMDetector.sMinus (1/2) [(-1:ℝ), -1, 1, 1] 0 = 0 from rfl]
  rw [max_eq_right (by norm_num : (0:ℝ) ≤ 0 - -1 - 1/2)]
  norm_num

/-- `S_minus[2]` on the C10 series with drift `1/2`. -/
theorem sMinus_c10_2 :
    CUSUMDetector.sMinus (1/2) [(-1:ℝ), -1, 1, 1] 2 = 0 := by
  have e2 : CUSUMDetector.sMinus (1/2) [(-1:ℝ), -1, 1, 1] 2 =
      max 0 (CUSUMDetector.sMinus (1/2) [(-1:ℝ), -1, 1, 1] 1 - 1 - 1/2) :=
    rfl
  rw [e2, sMinus_c10_1]
  rw [max_eq_left (by norm_num : (1:ℝ)/2 - 1 - 1/2 ≤ 0)]

/-- `S_minus[3]` on the C10 series with drift `1/2`. -/
theorem sMinus_c10_3 :
    CUSUMDetector.sMinus (1/2) [(-1:ℝ), -1, 1, 1] 3 = 0 := by
  have e3 : CUSUMDetector.sMinus (1/2) [(-1:ℝ), -1, 1, 1] 3 =
      max 0 (CUSUMDetector.sMinus (1/2) [(-1:ℝ), -1, 1, 1] 2 - 1 - 1/2) :=
    rfl
  rw [e3, sMinus_c10_2]
  rw [max_eq_left (by norm_num : (0:ℝ) - 1 - 1/2 ≤ 0)]

/-- Full C10 run: with threshold `9/10` and drift `1/2` on `[-1,-1,1,1]`
the CUSUM statistic first (and only) exceeds the threshold at the last
index 3, so exactly that one point is emitted. -/
theorem cusum_eval_c10 :
    CUSUMDetector.cusum_detect { threshold := 9/10, drift := 1/2 }
        [(-1:ℝ), -1, 1, 1] [0, 1, 2, 3] =
      [CUSUMDetector.mkCP { threshold := 9/10, drift := 1/2 }
        [(-1:ℝ), -1, 1, 1] [0, 1, 2, 3] [(-1:ℝ), -1, 1, 1] 3] := by
  unfold CUSUMDetector.cusum_detect
  dsimp only
  rw [if_neg (show ¬(([(-1:ℝ), -1, 1, 1]).length < 3) from by norm_num)]
  rw [npMean_c10, npStd_c10]
  rw [if_neg (show ¬((1:ℝ) < eps8R) from by norm_num [eps8R])]
  rw [show ([(-1:ℝ), -1, 1, 1]).map (fun x => (x - 0) / 1) =
    [(-1:ℝ), -1, 1, 1] from by simp]
  rw [show List.range' 1 (([(-1:ℝ), -1, 1, 1]).length - 1) = [1, 2, 3]
    from rfl]
  simp only [List.filterMap_cons, List.filterMap_nil, sPlus_c10_1,
    sPlus_c10_2, sPlus_c10_3, sMinus_c10_1, sMinus_c10_2, sMinus_c10_3]
  norm_num

/-- C10: the current-window reporting slice `values[i : min(n-1, i+5)]` of
`_cusum_detect` always excludes the final element of the series (it is a
five-element slice of `values.dropLast`), and it is empty whenever the
triggering index is the last one; concretely, on `[-1,-1,1,1]` with
threshold `9/10` and drift `1/2` the statistic first exceeds the threshold
exactly at the last index 3, one change point is emitted there (timestamp
3), and its current-window slice is empty — `np.mean` of an empty slice is
`NaN` in the source, so the emitted `current_score` (and hence
`change_rate`) is `NaN` rather than a well-defined mean. -/
theorem C10_cusum_current_slice_excludes_last :
    (∀ (values : List ℝ) (i : ℕ),
      CUSUMDetector.currSlice values i =
        ((values.dropLast).drop i).take 5) ∧
    (∀ values : List ℝ,
      CUSUMDetector.currSlice values (values.length - 1) = []) ∧
    CUSUMDetector.cusum_detect { threshold := 9/10, drift := 1/2 }
        [(-1:ℝ), -1, 1, 1] [0, 1, 2, 3] =
      [CUSUMDetector.mkCP { threshold := 9/10, drift := 1/2 }
        [(-1:ℝ), -1, 1, 1] [0, 1, 2, 3] [(-1:ℝ), -1, 1, 1] 3] ∧
    (CUSUMDetector.mkCP { threshold := 9/10, drift := 1/2 }
        [(-1:ℝ), -1, 1, 1] [0, 1, 2, 3] [(-1:ℝ), -1, 1, 1] 3).change_point =
      3 ∧
    CUSUMDetector.currSlice [(-1:ℝ), -1, 1, 1] 3 = [] :=
  ⟨CUSUMDetector.currSlice_eq_dropLast, CUSUMDetector.currSlice_last_nil,
   cusum_eval_c10, rfl, rfl⟩
